import Mathlib

/-!
# kubehatch backend (`src/backend/main.go`): a Lean model

The backend is a Go HTTP service that drives `kubectl` and `vcluster` as
subprocesses.  Everything outside the program is made explicit:

* `Lib` holds the third-party and standard-library codecs the program calls
  (`encoding/json`, `gopkg.in/yaml.v2`, `encoding/base64`);
* `World` holds the operating system: the result of every subprocess run, of
  every file-system call, and, for each polling loop, the number of ticker
  ticks that are delivered before the loop's deadline case is selected (the
  3-minute and 2-minute windows and the 10- and 15-second tickers enter the
  model through these counts only, which makes every loop total);
* every function returns a `Run`: its Go return value together with the list
  of external actions it performed, in order.

Go byte slices and Go strings are both modelled as `String`; a `nil` byte
slice is the empty string.  Go `int` is modelled as `Int`.
-/

set_option autoImplicit false

namespace KubeHatch

/-! ## Standard-library functions used by the program -/

/-- Go `unicode.IsSpace`. -/
def isSpace (c : Char) : Bool :=
  c == ' ' || c == '\t' || c == '\n' || c == '\x0b' || c == '\x0c' || c == '\r' ||
  c.val == 0x85 || c.val == 0xA0 || c.val == 0x1680 ||
  (0x2000 ≤ c.val && c.val ≤ 0x200a) ||
  c.val == 0x2028 || c.val == 0x2029 || c.val == 0x202f || c.val == 0x205f || c.val == 0x3000

/-- Go `strings.TrimSpace`: leading and trailing white space removed. -/
def trimSpace (s : String) : String :=
  String.mk ((s.data.dropWhile isSpace).reverse.dropWhile isSpace).reverse

/-- Go `strconv.Itoa` (and `strconv.FormatInt` in base 10). -/
def strconvItoa : Int → String
  | .ofNat m => Nat.repr m
  | .negSucc m => "-" ++ Nat.repr (m + 1)

/-- Go `strings.HasPrefix s p`. -/
def hasPrefixGo (s p : String) : Bool :=
  p.data.isPrefixOf s.data

/-- Go `strings.TrimPrefix s p`. -/
def trimPrefixGo (s p : String) : String :=
  if hasPrefixGo s p then String.mk (s.data.drop p.length) else s

/-- Go `filepath.Join` on a Unix host, without the lexical cleaning done by
`filepath.Clean`: the non-empty elements joined by a slash. -/
def filepathJoin (elems : List String) : String :=
  String.intercalate "/" (elems.filter (fun e => e != ""))

/-! ## Data model -/

/-- The Go type `VclusterConfig`, the content of `vcluster.yaml`. -/
structure VclusterConfig where
  apiVersion : String
  kind : String
  metadataName : String
  specReplicas : Int
  specServiceType : String
  deriving DecidableEq, Repr

/-- One element of `ServiceJSON.Status.LoadBalancer.Ingress`. -/
structure Ingress where
  ip : String
  hostname : String
  deriving DecidableEq, Repr

/-- One element of `ServiceJSON.Spec.Ports`. -/
structure ServicePort where
  port : Int
  deriving DecidableEq, Repr

/-- The Go type `ServiceJSON`: the parsed snapshot of a Kubernetes service. -/
structure ServiceJSON where
  ingress : List Ingress
  ports : List ServicePort
  deriving DecidableEq, Repr

/-- The Go type `VclusterResponse`. -/
structure VclusterResponse where
  kubeconfig : String
  deriving DecidableEq, Repr

/-- A Go `time.Time`, kept as Unix nanoseconds. -/
abbrev Time := Int

/-- The Go type `VclusterInfo`: one record of the cluster listing. -/
structure VclusterInfo where
  name : String
  /-- The Go field `Namespace`. -/
  namespaceName : String
  status : String
  ha : Bool
  loadBalancer : Bool
  endpoint : String
  createdAt : Time
  owner : String
  deriving DecidableEq, Repr

/-- The Go type `NamespaceJSON`. -/
structure NamespaceJSON where
  name : String
  creationTimestamp : Time
  deriving DecidableEq, Repr

/-- The Go type `StatefulSetJSON`. -/
structure StatefulSetJSON where
  statusReplicas : Int
  statusReadyReplicas : Int
  specReplicas : Int
  deriving DecidableEq, Repr

/-- A Go slice: `none` is the `nil` slice, `some xs` a non-nil slice. -/
abbrev GoSlice (α : Type) := Option (List α)

/-- Go `append(s, x)`: appending to the `nil` slice gives a non-nil slice. -/
def goAppend {α : Type} (s : GoSlice α) (x : α) : GoSlice α :=
  match s with
  | none => some [x]
  | some xs => some (xs ++ [x])

/-- The elements of a Go slice; the `nil` slice has none. -/
def goElems {α : Type} (s : GoSlice α) : List α :=
  match s with
  | none => []
  | some xs => xs

/-- The JSON document that `json.NewEncoder(w).Encode` writes for a value of
type `[]VclusterInfo`: an array, or `null` for the `nil` slice. -/
inductive JsonBody
  | null
  | array (records : List VclusterInfo)
  deriving DecidableEq, Repr

/-- Library call `json.Encoder.Encode` on a `[]VclusterInfo`. -/
def jsonEncodeClusters (s : GoSlice VclusterInfo) : JsonBody :=
  match s with
  | none => .null
  | some xs => .array xs

/-- A scalar of a YAML document as `yaml.v2` decodes it into `interface{}`;
these are also the possible keys of a `map[interface{}]interface{}`. -/
inductive YamlKey
  | null
  | bool (b : Bool)
  | int (n : Int)
  | float (text : String)
  | str (s : String)
  deriving DecidableEq, Repr

/-- A YAML value as `yaml.v2` decodes it into `interface{}`: a scalar, a
`[]interface{}` or a `map[interface{}]interface{}`.  A Go map is kept as an
association list; `mapGet` and `mapSet` give it map semantics. -/
inductive YamlValue
  | scalar (k : YamlKey)
  | seq (items : List YamlValue)
  | map (entries : List (YamlKey × YamlValue))

/-- The Go type `map[string]interface{}` that a kubeconfig is decoded into. -/
abbrev YamlConfig := List (String × YamlValue)

/-- Go map read `m[k]`; `none` is the absent key. -/
def mapGet {κ : Type} [DecidableEq κ] (m : List (κ × YamlValue)) (k : κ) : Option YamlValue :=
  match m with
  | [] => none
  | (k0, v) :: rest => if k0 = k then some v else mapGet rest k

/-- Go map write `m[k] = v`: the value of an existing key is replaced, an
absent key is added. -/
def mapSet {κ : Type} [DecidableEq κ] (m : List (κ × YamlValue)) (k : κ) (v : YamlValue) :
    List (κ × YamlValue) :=
  match m with
  | [] => [(k, v)]
  | (k0, v0) :: rest => if k0 = k then (k0, v) :: rest else (k0, v0) :: mapSet rest k v

/-! ## The outside world -/

/-- A subprocess as configured through `exec.Command`: tool, arguments,
`cmd.Dir` (empty when unset) and `cmd.Env` (`none` when unset). -/
structure Cmd where
  tool : String
  args : List String
  dir : String
  env : Option (List String)
  deriving DecidableEq, Repr

/-- What `cmd.CombinedOutput()` returns: the captured output and the error,
`none` standing for `nil`. -/
structure CmdResult where
  out : String
  err : Option String
  deriving DecidableEq, Repr

/-- The codecs the program calls.  Every error is carried as its text. -/
structure Lib where
  /-- Library call `json.Unmarshal` into a `ServiceJSON`. -/
  jsonUnmarshalService : String → Except String ServiceJSON
  /-- Library call `yaml.Marshal` of a `VclusterConfig`. -/
  yamlMarshalVclusterConfig : VclusterConfig → Except String String
  /-- Library call `yaml.Unmarshal` into a `map[string]interface{}`. -/
  yamlUnmarshal : String → Except String YamlConfig
  /-- Library call `yaml.Marshal` of a `map[string]interface{}`. -/
  yamlMarshal : YamlConfig → Except String String
  /-- Library call `base64.StdEncoding.DecodeString`. -/
  base64DecodeString : String → Except String String
  /-- Library call `json.Unmarshal` into the `items` of a namespace list. -/
  jsonUnmarshalNamespaceList : String → Except String (List NamespaceJSON)
  /-- Library call `json.Unmarshal` into a `StatefulSetJSON`. -/
  jsonUnmarshalStatefulSet : String → Except String StatefulSetJSON

/-- The operating system as the program observes it. -/
structure World where
  /-- Result of `os.Environ()`. -/
  environ : List String
  /-- Result of the `n`-th run (counted from 0 by the caller) of a command. -/
  exec : Cmd → Nat → CmdResult
  /-- Ticks received by the connect loop before its 3-minute deadline case is selected. -/
  connectTicks : Nat
  /-- Ticks received by the secret loop before its 2-minute deadline case is selected. -/
  secretTicks : Nat
  /-- Ticks received by the endpoint poll before its 3-minute deadline case is selected. -/
  pollTicks : Nat
  /-- Error of `os.MkdirAll path`, if any. -/
  mkdirAll : String → Option String
  /-- Error of `os.Create path`, if any. -/
  create : String → Option String
  /-- Error of `io.Copy` into the file at `path`, if any. -/
  copy : String → String → Option String
  /-- Result of `filepath.Abs path`. -/
  abs : String → Except String String
  /-- Whether `os.Stat path` succeeds. -/
  stat : String → Bool
  /-- Error of `os.WriteFile path data`, if any. -/
  writeFile : String → String → Option String
  /-- Result of `os.ReadFile path`. -/
  readFile : String → Except String String
  /-- Result of `time.Now().UnixNano()`. -/
  nowUnixNano : Int
  /-- Result of `os.UserHomeDir()`. -/
  userHomeDir : Except String String

/-- An external action performed by the program. -/
inductive Event
  | exec (c : Cmd)
  | mkdirAll (path : String)
  | create (path : String)
  | copy (path : String) (data : String)
  | writeFile (path : String) (data : String)
  | readFile (path : String)
  | sleep (minutes : Nat)
  deriving DecidableEq, Repr

/-- A Go return value together with the external actions performed, in order. -/
structure Run (α : Type) where
  val : α
  trace : List Event

/-- The run `r` preceded by the actions `pre`. -/
def Run.after {α : Type} (pre : List Event) (r : Run α) : Run α :=
  ⟨r.val, pre ++ r.trace⟩

/-- An incoming HTTP request, as far as the handlers read it. -/
structure Request where
  method : String
  /-- Error of `r.ParseMultipartForm`, if any. -/
  parseMultipartForm : Option String
  /-- Result of `r.FormValue`. -/
  formValue : String → String
  /-- Content of the uploaded `kubeconfigFile`, or the error of `r.FormFile`. -/
  formFile : Except String String
  /-- Result of `r.BasicAuth()`: user name and password when present. -/
  basicAuth : Option (String × String)
  /-- Result of `r.Header.Get`. -/
  header : String → String

/-- What a handler sends back. -/
inductive Response
  /-- Library call `http.Error(w, msg, code)`. -/
  | error (msg : String) (code : Nat)
  /-- Status 200 with the `reqid` cookie and a JSON-encoded `VclusterResponse`. -/
  | created (reqid : String) (resp : VclusterResponse)
  /-- Status 200 with an octet-stream attachment. -/
  | attachment (disposition : String) (data : String)
  /-- Status 200 with the JSON encoding of a cluster listing. -/
  | listing (body : JsonBody)
  deriving DecidableEq, Repr

/-! ## Helpers of `main.go` -/

/-- Inner loop of `filterEnv`: does `e` start with `key=` for some key? -/
def filterEnv.skip (e : String) : List String → Bool
  | [] => false
  | key :: rest => if hasPrefixGo e (key ++ "=") then true else filterEnv.skip e rest

/-- Source `filterEnv`: the entries of `env` that define none of `keys`. -/
def filterEnv (env keys : List String) : List String :=
  match env with
  | [] => []
  | e :: es => if filterEnv.skip e keys then filterEnv es keys else e :: filterEnv es keys

/-- Source `getUserFromRequest`. -/
def getUserFromRequest (r : Request) : String :=
  let fromHeaders : String :=
    if r.header "X-Forwarded-User" ≠ "" then r.header "X-Forwarded-User"
    else if r.header "X-Remote-User" ≠ "" then r.header "X-Remote-User"
    else "default"
  match r.basicAuth with
  | some (username, _) => if username ≠ "" then username else fromHeaders
  | none => fromHeaders

/-- The recurring `if hostKubeconfig != "" { args = append([]string{"--kubeconfig",
hostKubeconfig}, args...) }`. -/
def withKubeconfig (hostKubeconfig : String) (args : List String) : List String :=
  if hostKubeconfig ≠ "" then ["--kubeconfig", hostKubeconfig] ++ args else args

/-- The environment given to every `vcluster` subprocess: the process
environment without the three injected variables, plus `KUBECONFIG` when a
host kubeconfig is known. -/
def vclusterEnv (w : World) (hostKubeconfig : String) : List String :=
  let env := filterEnv w.environ ["KUBERNETES_SERVICE_HOST", "KUBERNETES_SERVICE_PORT", "KUBERNETES_PORT"]
  if hostKubeconfig ≠ "" then env ++ ["KUBECONFIG=" ++ hostKubeconfig] else env

/-- A `kubectl` subprocess, which inherits directory and environment. -/
def kubectl (args : List String) : Cmd :=
  { tool := "kubectl", args := args, dir := "", env := none }

/-! ## Endpoint resolution -/

/-- The command `kubectl get svc <name> -n vcluster-<name> -o json`. -/
def getSvcCmd (hostKubeconfig clusterName : String) : Cmd :=
  kubectl (withKubeconfig hostKubeconfig
    ["get", "svc", clusterName, "-n", "vcluster-" ++ clusterName, "-o", "json"])

/-- The command reading `.spec.clusterIP` of the service. -/
def getClusterIPCmd (hostKubeconfig clusterName : String) : Cmd :=
  kubectl (withKubeconfig hostKubeconfig
    ["get", "svc", clusterName, "-n", "vcluster-" ++ clusterName, "-o", "jsonpath=\x7b.spec.clusterIP\x7d"])

/-- The command reading `.spec.type` of the service. -/
def getSvcTypeCmd (hostKubeconfig clusterName : String) : Cmd :=
  kubectl (withKubeconfig hostKubeconfig
    ["get", "svc", clusterName, "-n", "vcluster-" ++ clusterName, "-o", "jsonpath=\x7b.spec.type\x7d"])

/-- Source `getClusterIPEndpoint`: the internal endpoint, single attempt. -/
def getClusterIPEndpoint (L : Lib) (w : World) (hostKubeconfig clusterName : String) :
    Run (Except String String) :=
  let c := getSvcCmd hostKubeconfig clusterName
  match (w.exec c 0).err with
  | some err => ⟨.error ("failed to get service: " ++ err), [.exec c]⟩
  | none =>
    match L.jsonUnmarshalService (w.exec c 0).out with
    | .error err => ⟨.error ("failed to parse service: " ++ err), [.exec c]⟩
    | .ok svc =>
      let c2 := getClusterIPCmd hostKubeconfig clusterName
      match (w.exec c2 0).err with
      | some err => ⟨.error ("failed to get ClusterIP: " ++ err), [.exec c, .exec c2]⟩
      | none =>
        let clusterIP := trimSpace (w.exec c2 0).out
        if clusterIP = "" then ⟨.error "ClusterIP is empty", [.exec c, .exec c2]⟩
        else
          match svc.ports with
          | [] => ⟨.error "no ports configured", [.exec c, .exec c2]⟩
          | p :: _ =>
            let endpoint :=
              if p.port = 443 then "https://" ++ clusterIP
              else "https://" ++ clusterIP ++ ":" ++ strconvItoa p.port
            ⟨.ok endpoint, [.exec c, .exec c2]⟩

/-- Lines 675-701 of `getExternalEndpoint`: the endpoint derived from a parsed
service snapshot. -/
def externalEndpointOf (svc : ServiceJSON) : Except String String :=
  match svc.ingress with
  | [] => .error "no external endpoint available"
  | ing :: _ =>
    let build (external : String) : Except String String :=
      match svc.ports with
      | [] => .error "no ports configured"
      | p :: _ =>
        if p.port = 443 then .ok ("https://" ++ external)
        else .ok ("https://" ++ external ++ ":" ++ strconvItoa p.port)
    if ing.ip ≠ "" then build ing.ip
    else if ing.hostname ≠ "" then build ing.hostname
    else .error "no valid external endpoint"

/-- Source `getExternalEndpoint`: the external endpoint, single attempt; `n`
counts the earlier runs of the same command in this request. -/
def getExternalEndpoint (L : Lib) (w : World) (n : Nat) (hostKubeconfig clusterName : String) :
    Run (Except String String) :=
  let c := getSvcCmd hostKubeconfig clusterName
  match (w.exec c n).err with
  | some err => ⟨.error ("failed to get service: " ++ err), [.exec c]⟩
  | none =>
    match L.jsonUnmarshalService (w.exec c n).out with
    | .error err => ⟨.error ("failed to parse service: " ++ err), [.exec c]⟩
    | .ok svc => ⟨externalEndpointOf svc, [.exec c]⟩

/-- The command of `pollForExternalEndpoint`, which always passes `--kubeconfig`. -/
def pollSvcCmd (hostKubeconfig clusterName : String) : Cmd :=
  kubectl ["--kubeconfig", hostKubeconfig, "get", "svc", clusterName, "-n",
    "vcluster-" ++ clusterName, "-o", "json"]

/-- Lines 1022-1045 of `pollForExternalEndpoint`: what one tick derives from a
parsed service snapshot; `none` means that polling continues. -/
def pollSnapshot (svc : ServiceJSON) : Option String :=
  match svc.ingress with
  | [] => none
  | ing :: _ =>
    let build (external : String) : Option String :=
      match svc.ports with
      | [] => none
      | p :: _ =>
        if p.port = 443 then some ("https://" ++ external)
        else some ("https://" ++ external ++ ":" ++ strconvItoa p.port)
    if ing.ip ≠ "" then build ing.ip
    else if ing.hostname ≠ "" then build ing.hostname
    else none

/-- Lines 1011-1045 of `pollForExternalEndpoint`: the `ticker.C` case of one
iteration, given the result of its `kubectl` run. -/
def pollTick (L : Lib) (r : CmdResult) : Option String :=
  match r.err with
  | some _ => none
  | none =>
    match L.jsonUnmarshalService r.out with
    | .error _ => none
    | .ok svc => pollSnapshot svc

/-- The loop of `pollForExternalEndpoint`: `ticks` ticks are still to come
before the deadline case is selected, `i` runs of the command were made. -/
def pollLoop (L : Lib) (w : World) (c : Cmd) : Nat → Nat → Run (Except String String)
  | 0, _ => ⟨.error "timed out waiting for external endpoint", []⟩
  | ticks + 1, i =>
    match pollTick L (w.exec c i) with
    | some endpoint => ⟨.ok endpoint, [.exec c]⟩
    | none => (pollLoop L w c ticks (i + 1)).after [.exec c]

/-- Source `pollForExternalEndpoint`. -/
def pollForExternalEndpoint (L : Lib) (w : World) (hostKubeconfig clusterName : String) :
    Run (Except String String) :=
  pollLoop L w (pollSvcCmd hostKubeconfig clusterName) w.pollTicks 0

/-- Source `checkLoadBalancerEnabled`. -/
def checkLoadBalancerEnabled (w : World) (hostKubeconfig clusterName : String) : Run Bool :=
  let c := getSvcTypeCmd hostKubeconfig clusterName
  match (w.exec c 0).err with
  | some _ => ⟨false, [.exec c]⟩
  | none => ⟨trimSpace (w.exec c 0).out == "LoadBalancer", [.exec c]⟩

/-! ## Endpoint rewrite -/

/-- One iteration of the loop of `updateKubeconfigEndpoint` (lines 1059-1069):
an entry that is a map with a map under `cluster` gets its `server` set, any
other entry is skipped. -/
def rewriteClusterEntry (newEndpoint : String) (c : YamlValue) : YamlValue :=
  match c with
  | .map clusterEntry =>
    match mapGet clusterEntry (.str "cluster") with
    | some (.map clusterData) =>
      .map (mapSet clusterEntry (.str "cluster")
        (.map (mapSet clusterData (.str "server") (.scalar (.str newEndpoint)))))
    | _ => c
  | _ => c

/-- Source `updateKubeconfigEndpoint`.  The Go code mutates the decoded maps in
place; here the updated `clusters` sequence is stored back under its key. -/
def updateKubeconfigEndpoint (L : Lib) (kcData : String) (newEndpoint : String) :
    Except String String :=
  match L.yamlUnmarshal kcData with
  | .error err => .error ("failed to unmarshal kubeconfig: " ++ err)
  | .ok config =>
    match mapGet config "clusters" with
    | some (.seq clusters) =>
      let config2 := mapSet config "clusters" (.seq (clusters.map (rewriteClusterEntry newEndpoint)))
      match L.yamlMarshal config2 with
      | .error err => .error ("failed to marshal updated kubeconfig: " ++ err)
      | .ok updated => .ok updated
    | _ => .error "kubeconfig missing \x27clusters\x27 field"

/-! ## Cluster creation and credential retrieval -/

/-- Lines 740-752 of `createVclusterYAML`: the configuration that is generated. -/
def vclusterConfigFor (clusterName : String) (ha useLoadBalancer : Bool) : VclusterConfig :=
  { apiVersion := "v1"
    kind := "VirtualCluster"
    metadataName := clusterName
    specReplicas := if ha then 3 else 1
    specServiceType := if useLoadBalancer then "LoadBalancer" else "" }

/-- Source `createVclusterYAML`; the returned `Option` is the Go `error`. -/
def createVclusterYAML (L : Lib) (w : World) (workingDir clusterName : String)
    (ha useLoadBalancer : Bool) : Run (Option String) :=
  match L.yamlMarshalVclusterConfig (vclusterConfigFor clusterName ha useLoadBalancer) with
  | .error err => ⟨some ("error marshalling YAML: " ++ err), []⟩
  | .ok data =>
    let yamlPath := filepathJoin [workingDir, "vcluster.yaml"]
    match w.writeFile yamlPath data with
    | some err => ⟨some ("error writing vcluster.yaml: " ++ err), [.writeFile yamlPath data]⟩
    | none => ⟨none, [.writeFile yamlPath data]⟩

/-- The subprocess of `createVirtualCluster`. -/
def createCmd (w : World) (workingDir clusterName hostKubeconfig : String)
    (useLoadBalancer : Bool) : Cmd :=
  { tool := "vcluster"
    args := ["create", clusterName, "--config", "vcluster.yaml", "--connect=false", "--debug"] ++
      (if useLoadBalancer then ["--expose"] else [])
    dir := workingDir
    env := some (vclusterEnv w hostKubeconfig) }

/-- Source `createVirtualCluster`. -/
def createVirtualCluster (w : World) (workingDir clusterName hostKubeconfig : String)
    (useLoadBalancer : Bool) : Run (Option String) :=
  let c := createCmd w workingDir clusterName hostKubeconfig useLoadBalancer
  match (w.exec c 0).err with
  | some err =>
    ⟨some ("vcluster create failed: " ++ err ++ "\nOutput:\n" ++ (w.exec c 0).out), [.exec c]⟩
  | none => ⟨none, [.exec c]⟩

/-- The subprocess `vcluster connect <name> --namespace vcluster-<name> --print`. -/
def connectCmd (w : World) (hostKubeconfig clusterName : String) : Cmd :=
  { tool := "vcluster"
    args := withKubeconfig hostKubeconfig
      ["connect", clusterName, "--namespace", "vcluster-" ++ clusterName, "--print"]
    dir := ""
    env := some (vclusterEnv w hostKubeconfig) }

/-- The subprocess reading the credential field of the secret `vc-<name>`. -/
def secretCmd (hostKubeconfig clusterName : String) : Cmd :=
  kubectl (withKubeconfig hostKubeconfig
    ["get", "secret", "vc-" ++ clusterName, "-n", "vcluster-" ++ clusterName,
      "--template=\x7b\x7b.data.config\x7d\x7d"])

/-- Lines 847-857 and 912-921: the endpoint rewrite applied to the retrieved
credentials `kcData` when load-balancer exposure was requested.  The Go
statement `kcData, err = updateKubeconfigEndpoint(...)` assigns `kcData` also
when it fails, and the failing call returns `nil`. -/
def patchKubeconfig (L : Lib) (w : World) (hostKubeconfig clusterName : String)
    (useLoadBalancer : Bool) (kcData : String) : Run String :=
  if useLoadBalancer then
    let p := pollForExternalEndpoint L w hostKubeconfig clusterName
    match p.val with
    | .ok externalEndpoint =>
      if externalEndpoint ≠ "" then
        match updateKubeconfigEndpoint L kcData externalEndpoint with
        | .ok updated => ⟨updated, p.trace⟩
        | .error _ => ⟨"", p.trace⟩
      else ⟨kcData, p.trace⟩
    | .error _ => ⟨kcData, p.trace⟩
  else ⟨kcData, []⟩

/-- Lines 859-868 and 923-932: the credentials are written to
`<workingDir>/.vcluster/<name>/kubeconfig.yaml`. -/
def writeKubeconfig (w : World) (workingDir clusterName kcData : String) : Run (Option String) :=
  let newDir := filepathJoin [workingDir, ".vcluster", clusterName]
  let newPath := filepathJoin [newDir, "kubeconfig.yaml"]
  match w.mkdirAll newDir with
  | some err => ⟨some ("failed to create directory: " ++ err), [.mkdirAll newDir]⟩
  | none =>
    match w.writeFile newPath kcData with
    | some err =>
      ⟨some ("failed to write kubeconfig file: " ++ err), [.mkdirAll newDir, .writeFile newPath kcData]⟩
    | none => ⟨none, [.mkdirAll newDir, .writeFile newPath kcData]⟩

/-- Lines 886-903 of `fetchKubeconfigFromSecretFallback`: what one iteration
obtains from the result of its `kubectl` run; `none` means no credential yet. -/
def secretAttempt (L : Lib) (r : CmdResult) : Option String :=
  match r.err with
  | some _ => none
  | none =>
    let base64Data := trimSpace r.out
    if base64Data = "" then none
    else
      match L.base64DecodeString base64Data with
      | .error _ => none
      | .ok decoded => if 0 < decoded.length then some decoded else none

/-- The error of `fetchKubeconfigFromSecretFallback` when its window expires. -/
def secretTimeoutError (clusterName : String) : String :=
  "timed out waiting for vcluster secret " ++ ("vc-" ++ clusterName) ++ " in namespace " ++
    ("vcluster-" ++ clusterName)

/-- The loop of `fetchKubeconfigFromSecretFallback` (lines 880-910): `ticks`
ticks are still to come before the deadline case is selected, `i` runs of the
command were made.  Each iteration runs the command first and selects after. -/
def secretLoop (L : Lib) (w : World) (c : Cmd) (clusterName : String) :
    Nat → Nat → Run (Except String String)
  | 0, i =>
    match secretAttempt L (w.exec c i) with
    | some kcData => ⟨.ok kcData, [.exec c]⟩
    | none => ⟨.error (secretTimeoutError clusterName), [.exec c]⟩
  | ticks + 1, i =>
    match secretAttempt L (w.exec c i) with
    | some kcData => ⟨.ok kcData, [.exec c]⟩
    | none => (secretLoop L w c clusterName ticks (i + 1)).after [.exec c]

/-- Source `fetchKubeconfigFromSecretFallback`. -/
def fetchKubeconfigFromSecretFallback (L : Lib) (w : World)
    (workingDir clusterName hostKubeconfig : String) (useLoadBalancer : Bool) :
    Run (Option String) :=
  let got := secretLoop L w (secretCmd hostKubeconfig clusterName) clusterName w.secretTicks 0
  match got.val with
  | .error err => ⟨some err, got.trace⟩
  | .ok kcData =>
    let patched := patchKubeconfig L w hostKubeconfig clusterName useLoadBalancer kcData
    (writeKubeconfig w workingDir clusterName patched.val).after (got.trace ++ patched.trace)

/-- The loop of `fetchAndPatchKubeconfigFromSecret` (lines 816-845); `none`
is the deadline case, in which the caller falls back to the secret. -/
def connectLoop (w : World) (c : Cmd) : Nat → Nat → Run (Option String)
  | 0, i =>
    match (w.exec c i).err with
    | none => ⟨some (w.exec c i).out, [.exec c]⟩
    | some _ => ⟨none, [.exec c]⟩
  | ticks + 1, i =>
    match (w.exec c i).err with
    | none => ⟨some (w.exec c i).out, [.exec c]⟩
    | some _ => (connectLoop w c ticks (i + 1)).after [.exec c]

/-- Source `fetchAndPatchKubeconfigFromSecret`. -/
def fetchAndPatchKubeconfigFromSecret (L : Lib) (w : World)
    (workingDir clusterName hostKubeconfig : String) (useLoadBalancer : Bool) :
    Run (Option String) :=
  let got := connectLoop w (connectCmd w hostKubeconfig clusterName) w.connectTicks 0
  match got.val with
  | none =>
    (fetchKubeconfigFromSecretFallback L w workingDir clusterName hostKubeconfig
      useLoadBalancer).after got.trace
  | some kcData =>
    let patched := patchKubeconfig L w hostKubeconfig clusterName useLoadBalancer kcData
    (writeKubeconfig w workingDir clusterName patched.val).after (got.trace ++ patched.trace)

/-- Source `setClusterOwner`; `n` counts the earlier runs of the same command. -/
def setClusterOwner (w : World) (n : Nat) (hostKubeconfig clusterName owner : String) :
    Run (Option String) :=
  let c := kubectl (withKubeconfig hostKubeconfig
    ["annotate", "namespace", "vcluster-" ++ clusterName, "kubehatch.io/owner=" ++ owner,
      "--overwrite"])
  match (w.exec c n).err with
  | some err =>
    ⟨some ("failed to set owner annotation: " ++ err ++ ", output: " ++ (w.exec c n).out), [.exec c]⟩
  | none => ⟨none, [.exec c]⟩

/-! ## The create handler -/

/-- The values fixed by lines 146-205 of `vclusterHandler`, before the first
provisioning stage. -/
structure Provision where
  clusterName : String
  ha : Bool
  useLoadBalancer : Bool
  currentUser : String
  reqID : String
  workingDir : String
  hostKubeconfig : String

/-- Lines 146-205 of `vclusterHandler`: request validation, the per-request
working directory and the choice of the host kubeconfig. -/
def vclusterHandler.setup (w : World) (r : Request) : Run (Except Response Provision) :=
  if r.method ≠ "POST" then ⟨.error (.error "Only POST allowed" 405), []⟩
  else
    match r.parseMultipartForm with
    | some err => ⟨.error (.error ("Error parsing multipart form: " ++ err) 400), []⟩
    | none =>
      let clusterName := r.formValue "clusterName"
      let ha := r.formValue "ha" == "on"
      let useLoadBalancer := r.formValue "loadbalancer" == "on"
      if clusterName = "" then ⟨.error (.error "clusterName is required" 400), []⟩
      else
        let currentUser := getUserFromRequest r
        let reqID := strconvItoa w.nowUnixNano
        let workingDir := filepathJoin [".", "requests", reqID]
        match w.mkdirAll workingDir with
        | some err =>
          ⟨.error (.error ("Error creating working directory: " ++ err) 500), [.mkdirAll workingDir]⟩
        | none =>
          match r.formFile with
          | .ok file =>
            let uploadPath := filepathJoin [workingDir, "uploaded.yaml"]
            match w.create uploadPath with
            | some err =>
              ⟨.error (.error ("Error creating file: " ++ err) 500),
                [.mkdirAll workingDir, .create uploadPath]⟩
            | none =>
              match w.copy uploadPath file with
              | some err =>
                ⟨.error (.error ("Error saving uploaded file: " ++ err) 500),
                  [.mkdirAll workingDir, .create uploadPath, .copy uploadPath file]⟩
              | none =>
                match w.abs uploadPath with
                | .error err =>
                  ⟨.error (.error ("Error determining absolute path: " ++ err) 500),
                    [.mkdirAll workingDir, .create uploadPath, .copy uploadPath file]⟩
                | .ok hostKubeconfig =>
                  ⟨.ok ⟨clusterName, ha, useLoadBalancer, currentUser, reqID, workingDir,
                      hostKubeconfig⟩,
                    [.mkdirAll workingDir, .create uploadPath, .copy uploadPath file]⟩
          | .error _ =>
            let hostKubeconfig := if w.stat "/var/secrets/kubeconfig" then "/var/secrets/kubeconfig" else ""
            ⟨.ok ⟨clusterName, ha, useLoadBalancer, currentUser, reqID, workingDir, hostKubeconfig⟩,
              [.mkdirAll workingDir]⟩

/-- Lines 207-254 of `vclusterHandler`: the provisioning stages.  The owner
annotation is set twice, as in the source (lines 235 and 245). -/
def vclusterHandler.stages (L : Lib) (w : World) (p : Provision) : Run Response :=
  let y := createVclusterYAML L w p.workingDir p.clusterName p.ha p.useLoadBalancer
  match y.val with
  | some err => ⟨.error ("Error creating YAML: " ++ err) 500, y.trace⟩
  | none =>
    let c := createVirtualCluster w p.workingDir p.clusterName p.hostKubeconfig p.useLoadBalancer
    match c.val with
    | some err => ⟨.error ("Error creating virtual cluster: " ++ err) 500, y.trace ++ c.trace⟩
    | none =>
      let f := fetchAndPatchKubeconfigFromSecret L w p.workingDir p.clusterName p.hostKubeconfig
        p.useLoadBalancer
      match f.val with
      | some err =>
        ⟨.error ("Error fetching kubeconfig from secret: " ++ err) 500,
          y.trace ++ c.trace ++ [.sleep 1] ++ f.trace⟩
      | none =>
        let kcPath := filepathJoin [p.workingDir, ".vcluster", p.clusterName, "kubeconfig.yaml"]
        match w.readFile kcPath with
        | .error err =>
          ⟨.error ("Error reading kubeconfig: " ++ err) 500,
            y.trace ++ c.trace ++ [.sleep 1] ++ f.trace ++ [.readFile kcPath]⟩
        | .ok kcData =>
          let o1 := setClusterOwner w 0 p.hostKubeconfig p.clusterName p.currentUser
          let o2 := setClusterOwner w 1 p.hostKubeconfig p.clusterName p.currentUser
          ⟨.created p.reqID ⟨kcData⟩,
            y.trace ++ c.trace ++ [.sleep 1] ++ f.trace ++ [.readFile kcPath] ++ o1.trace ++ o2.trace⟩

/-- Source `vclusterHandler`. -/
def vclusterHandler (L : Lib) (w : World) (r : Request) : Run Response :=
  let s := vclusterHandler.setup w r
  match s.val with
  | .error resp => ⟨resp, s.trace⟩
  | .ok p => (vclusterHandler.stages L w p).after s.trace

/-! ## The read path -/

/-- The `Content-Disposition` header of a kubeconfig download. -/
def kubeconfigDisposition (clusterName : String) : String :=
  "attachment; filename=kubeconfig-" ++ clusterName ++ ".yaml"

/-- Source `getKubeconfigFromSecretFallback`. -/
def getKubeconfigFromSecretFallback (L : Lib) (w : World) (clusterName hostKubeconfig : String) :
    Run Response :=
  let c := secretCmd hostKubeconfig clusterName
  match (w.exec c 0).err with
  | some err => ⟨.error ("Error getting kubeconfig: " ++ err) 404, [.exec c]⟩
  | none =>
    let base64Data := trimSpace (w.exec c 0).out
    if base64Data = "" then ⟨.error "Kubeconfig secret is empty" 404, [.exec c]⟩
    else
      match L.base64DecodeString base64Data with
      | .error err => ⟨.error ("Error decoding kubeconfig: " ++ err) 500, [.exec c]⟩
      | .ok decoded => ⟨.attachment (kubeconfigDisposition clusterName) decoded, [.exec c]⟩

/-- Source `getKubeconfigFromSecret`, which serves
`GET /api/vcluster/<name>/kubeconfig`. -/
def getKubeconfigFromSecret (L : Lib) (w : World) (clusterName hostKubeconfig : String) :
    Run Response :=
  let c := connectCmd w hostKubeconfig clusterName
  match (w.exec c 0).err with
  | some _ => (getKubeconfigFromSecretFallback L w clusterName hostKubeconfig).after [.exec c]
  | none =>
    let kcData := (w.exec c 0).out
    let lb := checkLoadBalancerEnabled w hostKubeconfig clusterName
    if lb.val then
      let e := getExternalEndpoint L w 0 hostKubeconfig clusterName
      match e.val with
      | .ok endpoint =>
        if endpoint ≠ "" then
          match updateKubeconfigEndpoint L kcData endpoint with
          | .ok updated =>
            ⟨.attachment (kubeconfigDisposition clusterName) updated, [.exec c] ++ lb.trace ++ e.trace⟩
          | .error _ =>
            ⟨.attachment (kubeconfigDisposition clusterName) "", [.exec c] ++ lb.trace ++ e.trace⟩
        else
          ⟨.attachment (kubeconfigDisposition clusterName) kcData, [.exec c] ++ lb.trace ++ e.trace⟩
      | .error _ =>
        ⟨.attachment (kubeconfigDisposition clusterName) kcData, [.exec c] ++ lb.trace ++ e.trace⟩
    else ⟨.attachment (kubeconfigDisposition clusterName) kcData, [.exec c] ++ lb.trace⟩

/-! ## The inventory -/

/-- Source `getDefaultKubeconfig`. -/
def getDefaultKubeconfig (w : World) : String :=
  if w.stat "/var/secrets/kubeconfig" then "/var/secrets/kubeconfig"
  else
    match w.userHomeDir with
    | .ok homeDir =>
      let localKubeconfig := filepathJoin [homeDir, ".kube", "config"]
      if w.stat localKubeconfig then localKubeconfig else ""
    | .error _ => ""

/-- The command reading the owner annotation of the namespace `vcluster-<name>`. -/
def getOwnerCmd (hostKubeconfig clusterName : String) : Cmd :=
  kubectl (withKubeconfig hostKubeconfig
    ["get", "namespace", "vcluster-" ++ clusterName, "-o",
      "jsonpath=\x7b.metadata.annotations.kubehatch\\.io/owner\x7d"])

/-- Source `getClusterOwner`; `n` tells the runs of the same command apart.
Lines 563-572 return the empty string on every path. -/
def getClusterOwner (w : World) (n : Nat) (hostKubeconfig clusterName : String) : Run String :=
  let c := getOwnerCmd hostKubeconfig clusterName
  if (w.exec c n).err = none ∧ trimSpace (w.exec c n).out ≠ "" then
    ⟨trimSpace (w.exec c n).out, [.exec c]⟩
  else ⟨"", [.exec c]⟩

/-- The command `kubectl get statefulset <name> -n vcluster-<name> -o json`. -/
def getStsCmd (hostKubeconfig clusterName : String) : Cmd :=
  kubectl (withKubeconfig hostKubeconfig
    ["get", "statefulset", clusterName, "-n", "vcluster-" ++ clusterName, "-o", "json"])

/-- Lines 598-608 of `getVclusterInfo`: HA flag and status taken from the
output of the StatefulSet lookup; a parse failure leaves the record as it is. -/
def withWorkloadStatus (L : Lib) (out : String) (info : VclusterInfo) : VclusterInfo :=
  match L.jsonUnmarshalStatefulSet out with
  | .ok sts =>
    { info with
      ha := decide (sts.specReplicas > 1)
      status :=
        if sts.statusReadyReplicas = sts.specReplicas ∧ sts.specReplicas > 0 then "Running"
        else if sts.statusReadyReplicas > 0 then "Pending"
        else "Pending" }
  | .error _ => info

/-- Lines 610-637 of `getVclusterInfo`: the load-balancer flag and the
endpoint, looked up in a single attempt.  The service snapshot is read with
run `2 * k` here and with run `2 * k + 1` inside `getExternalEndpoint`. -/
def withLoadBalancer (L : Lib) (w : World) (k : Nat) (hostKubeconfig clusterName : String)
    (info : VclusterInfo) : Run VclusterInfo :=
  let c := getSvcCmd hostKubeconfig clusterName
  match (w.exec c (2 * k)).err with
  | some _ => ⟨info, [.exec c]⟩
  | none =>
    match L.jsonUnmarshalService (w.exec c (2 * k)).out with
    | .error _ => ⟨info, [.exec c]⟩
    | .ok svc =>
      if svc.ports ≠ [] then
        let t := getSvcTypeCmd hostKubeconfig clusterName
        if trimSpace (w.exec t k).out = "LoadBalancer" then
          let e := getExternalEndpoint L w (2 * k + 1) hostKubeconfig clusterName
          match e.val with
          | .ok endpoint =>
            ⟨{ info with loadBalancer := true, endpoint := endpoint }, [.exec c, .exec t] ++ e.trace⟩
          | .error _ => ⟨{ info with loadBalancer := true }, [.exec c, .exec t] ++ e.trace⟩
        else ⟨info, [.exec c, .exec t]⟩
      else ⟨info, [.exec c]⟩

/-- Source `getVclusterInfo`, for the namespace at position `k` of the
enumeration; its Go error is `nil` on every path. -/
def getVclusterInfo (L : Lib) (w : World) (k : Nat) (hostKubeconfig clusterName : String)
    (createdAt : Time) (_currentUser : String) : Run (Except String VclusterInfo) :=
  let o := getClusterOwner w (2 * k) hostKubeconfig clusterName
  let info : VclusterInfo :=
    { name := clusterName
      namespaceName := "vcluster-" ++ clusterName
      createdAt := createdAt
      status := "Unknown"
      owner := o.val
      ha := false
      loadBalancer := false
      endpoint := "" }
  let c := getStsCmd hostKubeconfig clusterName
  match (w.exec c k).err with
  | some _ => ⟨.ok { info with status := "Pending" }, o.trace ++ [.exec c]⟩
  | none =>
    let lb := withLoadBalancer L w k hostKubeconfig clusterName
      (withWorkloadStatus L (w.exec c k).out info)
    ⟨.ok lb.val, o.trace ++ [.exec c] ++ lb.trace⟩

/-- Lines 528-534 of `listVclusters`: the degraded record substituted when
`getVclusterInfo` fails. -/
def degradedInfo (w : World) (n : Nat) (hostKubeconfig clusterName : String)
    (ns : NamespaceJSON) : Run VclusterInfo :=
  let o := getClusterOwner w n hostKubeconfig clusterName
  ⟨{ name := clusterName
     namespaceName := ns.name
     createdAt := ns.creationTimestamp
     status := "Unknown"
     owner := o.val
     ha := false
     loadBalancer := false
     endpoint := "" }, o.trace⟩

/-- Lines 522-535 of `listVclusters`: the record built for the namespace `ns`
at position `k` of the enumeration. -/
def listVclusters.record (L : Lib) (w : World) (hostKubeconfig currentUser : String) (k : Nat)
    (ns : NamespaceJSON) : Run VclusterInfo :=
  let clusterName := trimPrefixGo ns.name "vcluster-"
  let g := getVclusterInfo L w k hostKubeconfig clusterName ns.creationTimestamp currentUser
  match g.val with
  | .ok info => ⟨info, g.trace⟩
  | .error _ => (degradedInfo w (2 * k + 1) hostKubeconfig clusterName ns).after g.trace

/-- The loop of `listVclusters` (lines 517-544) over the namespaces still to
visit, the first of them at position `k`, with the slice `clusters` built so far. -/
def listVclusters.loop (L : Lib) (w : World) (hostKubeconfig currentUser : String) :
    List NamespaceJSON → Nat → GoSlice VclusterInfo → Run (GoSlice VclusterInfo)
  | [], _, clusters => ⟨clusters, []⟩
  | ns :: rest, k, clusters =>
    if hasPrefixGo ns.name "vcluster-" = false then
      listVclusters.loop L w hostKubeconfig currentUser rest (k + 1) clusters
    else
      let built := listVclusters.record L w hostKubeconfig currentUser k ns
      if currentUser = "default" ∨ currentUser = "admin" ∨ built.val.owner = "" ∨
          built.val.owner = currentUser then
        (listVclusters.loop L w hostKubeconfig currentUser rest (k + 1)
          (goAppend clusters built.val)).after built.trace
      else
        (listVclusters.loop L w hostKubeconfig currentUser rest (k + 1) clusters).after built.trace

/-- The command `kubectl get namespaces -o json`. -/
def getNamespacesCmd (hostKubeconfig : String) : Cmd :=
  kubectl (withKubeconfig hostKubeconfig ["get", "namespaces", "-o", "json"])

/-- Source `listVclusters`. -/
def listVclusters (L : Lib) (w : World) (hostKubeconfig currentUser : String) :
    Run (Except String (GoSlice VclusterInfo)) :=
  let c := getNamespacesCmd hostKubeconfig
  match (w.exec c 0).err with
  | some err => ⟨.error ("failed to list namespaces: " ++ err), [.exec c]⟩
  | none =>
    match L.jsonUnmarshalNamespaceList (w.exec c 0).out with
    | .error err => ⟨.error ("failed to parse namespace list: " ++ err), [.exec c]⟩
    | .ok items =>
      let l := listVclusters.loop L w hostKubeconfig currentUser items 0 none
      ⟨.ok l.val, [.exec c] ++ l.trace⟩

/-- Source `vclustersListHandler`.  The two early exits encode the non-nil
empty slice `[]VclusterInfo{}`, the last line encodes what `listVclusters`
returned. -/
def vclustersListHandler (L : Lib) (w : World) (r : Request) : Run Response :=
  if r.method ≠ "GET" then ⟨.error "Only GET allowed" 405, []⟩
  else
    let currentUser := getUserFromRequest r
    let hostKubeconfig := getDefaultKubeconfig w
    if hostKubeconfig = "" then ⟨.listing (jsonEncodeClusters (some [])), []⟩
    else
      let l := listVclusters L w hostKubeconfig currentUser
      match l.val with
      | .error _ => ⟨.listing (jsonEncodeClusters (some [])), l.trace⟩
      | .ok clusters => ⟨.listing (jsonEncodeClusters clusters), l.trace⟩

/-! ## Properties in the words of the specification -/

/-- The canonical endpoint URI in the words of the specification: scheme
`https`, the port left out when it is 443 and appended in decimal otherwise. -/
def endpointURI (host : String) (port : Int) : String :=
  if port = 443 then "https://" ++ host else "https://" ++ host ++ ":" ++ strconvItoa port

/-- The three outcomes of a secret read that the specification names as
"not ready yet": a failed read, a credential field that is empty after
trimming, and a base64 decode failure. -/
def notReady (L : Lib) (r : CmdResult) : Bool :=
  match r.err with
  | some _ => true
  | none =>
    trimSpace r.out == "" ||
      (match L.base64DecodeString (trimSpace r.out) with
       | .error _ => true
       | .ok _ => false)

/-- The map `m2` is the map `m` with `k` bound to `v`: reading `k` gives `v`,
reading any other key gives what `m` gives, present or absent. -/
def MapUpdated {κ : Type} [DecidableEq κ] (m m2 : List (κ × YamlValue)) (k : κ)
    (v : YamlValue) : Prop :=
  mapGet m2 k = some v ∧ ∀ k2, k2 ≠ k → mapGet m2 k2 = mapGet m k2

/-- The cluster entry `c2` is the cluster entry `c` with the `server` field of
its nested `cluster` mapping set to `e`, and nothing else changed. -/
def EntryRewritten (e : String) (c c2 : YamlValue) : Prop :=
  ∃ m cd m2 cd2, c = .map m ∧ mapGet m (.str "cluster") = some (.map cd) ∧ c2 = .map m2 ∧
    MapUpdated m m2 (.str "cluster") (.map cd2) ∧
    MapUpdated cd cd2 (.str "server") (.scalar (.str e))

/-- The document `config2` is the document `config` with the `server` field of
every cluster entry set to `e`: the `clusters` sequences match entry by entry,
and no other key or value differs. -/
def ServerRewritten (e : String) (config config2 : YamlConfig) : Prop :=
  ∃ cs cs2, mapGet config "clusters" = some (.seq cs) ∧
    MapUpdated config config2 "clusters" (.seq cs2) ∧
    List.Forall₂ (EntryRewritten e) cs cs2

/-- The visibility rule in the words of the specification: the identities
`admin` and `default` see every record, any other identity sees exactly the
records whose owner is unset or is that identity. -/
def visibleTo (u : String) (info : VclusterInfo) : Bool :=
  if u = "admin" ∨ u = "default" then true else decide (info.owner = "" ∨ info.owner = u)

/-- The records a listing considers, in the words of the specification: one
for every enumerated namespace whose name is prefixed `vcluster-`, in
enumeration order; `k` is the position of the first namespace. -/
def consideredRecords (L : Lib) (w : World) (hostKubeconfig currentUser : String)
    (items : List NamespaceJSON) (k : Nat) : List VclusterInfo :=
  ((items.enumFrom k).filter (fun p => hasPrefixGo p.2.name "vcluster-")).map
    (fun p => (listVclusters.record L w hostKubeconfig currentUser p.1 p.2).val)

/-- The status rule in the words of the specification, for `d` desired and
`r` ready replicas. -/
def workloadStatus (d r : Int) : String :=
  if r = d ∧ d > 0 then "Running" else "Pending"

/-- The environment filter in the words of the specification: the entries of
`env`, in their order, that begin with `k=` for no `k` in `keys`. -/
def keptEntries (env keys : List String) : List String :=
  env.filter (fun e => !(keys.any (fun k => hasPrefixGo e (k ++ "="))))

/-! ## Concrete libraries and worlds used to instantiate the theorems -/

/-- A service with a populated load-balancer ingress, on port 443. -/
def svcReady : ServiceJSON := ⟨[⟨"1.2.3.4", ""⟩], [⟨443⟩]⟩

/-- A service whose load balancer has not been assigned yet. -/
def svcPending : ServiceJSON := ⟨[], [⟨443⟩]⟩

/-- A service whose first ingress entry is blank and whose second carries an IP. -/
def svcGap : ServiceJSON := ⟨[⟨"", ""⟩, ⟨"1.2.3.4", ""⟩], [⟨443⟩]⟩

/-- A service with an ingress host name and a non-default port. -/
def svcNamed : ServiceJSON := ⟨[⟨"", "lb.example.com"⟩], [⟨8443⟩, ⟨443⟩]⟩

/-- A kubeconfig with one cluster entry, as `vcluster connect --print` emits it. -/
def docLocal : YamlConfig :=
  [("clusters", .seq [.map [(.str "cluster", .map [(.str "server", .scalar (.str "https://localhost:8443"))])]])]

/-- The kubeconfig `docLocal` with its server set to `https://1.2.3.4`. -/
def docExternal : YamlConfig :=
  [("clusters", .seq [.map [(.str "cluster", .map [(.str "server", .scalar (.str "https://1.2.3.4"))])]])]

/-- A table-driven stand-in for `yaml.Marshal`: `docExternal` is rendered as
`kc-external`, every other document as `kc-other`. -/
def toyYamlMarshal : YamlConfig → Except String String
  | [("clusters", .seq [.map [(.str "cluster", .map [(.str "server", .scalar (.str "https://1.2.3.4"))])]])] =>
    .ok "kc-external"
  | _ => .ok "kc-other"

/-- A table-driven stand-in for the codecs, defined on the few documents the
instances below use. -/
def toyLib : Lib where
  jsonUnmarshalService := fun s =>
    if s = "svc-ready" then .ok svcReady
    else if s = "svc-pending" then .ok svcPending
    else if s = "svc-gap" then .ok svcGap
    else if s = "svc-named" then .ok svcNamed
    else .error "invalid character"
  yamlMarshalVclusterConfig := fun cfg =>
    .ok ("name: " ++ cfg.metadataName ++ "\nreplicas: " ++ strconvItoa cfg.specReplicas ++ "\n")
  yamlUnmarshal := fun s =>
    if s = "kc-local" then .ok docLocal
    else if s = "kc-external" then .ok docExternal
    else .error "cannot unmarshal"
  yamlMarshal := toyYamlMarshal
  base64DecodeString := fun s =>
    if s = "a2M=" then .ok "kc" else .error "illegal base64 data"
  jsonUnmarshalNamespaceList := fun s =>
    if s = "ns-two" then .ok [⟨"default", 5⟩, ⟨"vcluster-demo", 10⟩, ⟨"vcluster-other", 20⟩]
    else if s = "ns-pair" then .ok [⟨"vcluster-demo", 10⟩, ⟨"vcluster-other", 20⟩]
    else if s = "ns-none" then .ok [⟨"default", 5⟩, ⟨"kube-system", 6⟩]
    else .error "invalid character"
  jsonUnmarshalStatefulSet := fun s =>
    if s = "sts-ready" then .ok ⟨1, 1, 1⟩
    else if s = "sts-starting" then .ok ⟨3, 1, 3⟩
    else .error "invalid character"

/-- A world in which every file-system call succeeds, no tick is received by
any loop, and every subprocess prints `out` and exits with status 0. -/
def calmWorld (out : Cmd → Nat → String) : World where
  environ := ["PATH=/usr/bin", "KUBERNETES_PORT=tcp://10.0.0.1:443"]
  exec := fun c n => ⟨out c n, none⟩
  connectTicks := 0
  secretTicks := 0
  pollTicks := 0
  mkdirAll := fun _ => none
  create := fun _ => none
  copy := fun _ _ => none
  abs := fun path => .ok ("/srv/" ++ path)
  stat := fun _ => false
  writeFile := fun _ _ => none
  readFile := fun _ => .ok "kc-local"
  nowUnixNano := 42
  userHomeDir := .ok "/root"

/-- A world like `calmWorld` whose endpoint poll receives two ticks. -/
def pollingWorld (out : Cmd → Nat → String) : World :=
  { calmWorld out with pollTicks := 2 }

/-- Subprocess output of a cluster whose service is internal: the service
snapshot is `svc-named`, every other command prints a padded cluster IP. -/
def internalOut (c : Cmd) (_ : Nat) : String :=
  if c = getSvcCmd "" "demo" then "svc-named" else " 10.96.0.7\n"

/-- A world in which every subprocess fails; the connect loop receives two
ticks and the secret loop one before their deadlines. -/
def failingWorld : World :=
  { calmWorld (fun _ _ => "") with
    exec := fun _ _ => ⟨"", some "exit status 1"⟩
    connectTicks := 2
    secretTicks := 1 }

/-- A world in which the secret exists with a blank credential field; the
secret loop receives one tick before its deadline. -/
def blankSecretWorld : World :=
  { calmWorld (fun _ _ => "  \n") with secretTicks := 1 }

/-- Subprocess output of a cluster exposed through a load balancer that has
not been assigned an address: the service type is `LoadBalancer`, the service
snapshot has no ingress entry, every other command prints `kc-local`. -/
def pendingOut (c : Cmd) (_ : Nat) : String :=
  if c = getSvcTypeCmd "" "demo" then "LoadBalancer"
  else if c = getSvcCmd "" "demo" then "svc-pending"
  else if c = pollSvcCmd "" "demo" then "svc-pending"
  else "kc-local"

/-- A world in which every subprocess succeeds and prints `pendingOut`; the
endpoint poll receives two ticks before its deadline. -/
def pendingWorld : World := pollingWorld pendingOut

/-- A world like `pendingWorld` in which `vcluster` fails and the secret
`vc-demo` holds the base64 text of `kc`. -/
def secretWorld : World :=
  { pendingWorld with
    exec := fun c n =>
      if c.tool = "vcluster" then ⟨"", some "exit status 1"⟩
      else if c = secretCmd "" "demo" then ⟨"a2M=\n", none⟩
      else ⟨pendingOut c n, none⟩ }

/-- A create request for the cluster `demo` with load-balancer exposure, no
uploaded kubeconfig and no credentials. -/
def lbRequest : Request where
  method := "POST"
  parseMultipartForm := none
  formValue := fun k =>
    if k = "clusterName" then "demo" else if k = "loadbalancer" then "on" else ""
  formFile := .error "http: no such file"
  basicAuth := none
  header := fun _ => ""

/-- A world like `pendingWorld` in which annotating the namespace fails. -/
def ownerFailWorld : World :=
  { pendingWorld with
    exec := fun c n =>
      if c.args.contains "annotate" then ⟨"forbidden", some "exit status 1"⟩
      else ⟨pendingOut c n, none⟩ }

/-- The values that `vclusterHandler.setup` fixes for `lbRequest` at time 42. -/
def lbProvision : Provision :=
  ⟨"demo", false, true, "default", "42", "./requests/42", ""⟩

/-- Subprocess output of a host with the namespaces `default`,
`vcluster-demo` (owner `alice`, one ready replica) and `vcluster-other` (owner
`bob`, still starting), both clusters with an internal service. -/
def inventoryOut (c : Cmd) (_ : Nat) : String :=
  if c = getNamespacesCmd "" then "ns-two"
  else if c = getOwnerCmd "" "demo" then "alice\n"
  else if c = getOwnerCmd "" "other" then "bob"
  else if c = getStsCmd "" "demo" then "sts-ready"
  else if c = getStsCmd "" "other" then "sts-starting"
  else if c = getSvcTypeCmd "" "demo" then "ClusterIP"
  else if c = getSvcTypeCmd "" "other" then "ClusterIP"
  else "svc-named"

/-- The record that the listing builds for `vcluster-demo` in `inventoryOut`. -/
def demoRecord : VclusterInfo :=
  { name := "demo", namespaceName := "vcluster-demo", status := "Running", ha := false,
    loadBalancer := false, endpoint := "", createdAt := 10, owner := "alice" }

/-- The record that the listing builds for `vcluster-other` in `inventoryOut`. -/
def otherRecord : VclusterInfo :=
  { name := "other", namespaceName := "vcluster-other", status := "Pending", ha := true,
    loadBalancer := false, endpoint := "", createdAt := 20, owner := "bob" }

/-- A host with mounted credentials and no virtual cluster: the namespace
enumeration succeeds and lists `default` and `kube-system` only. -/
def emptyHostWorld : World :=
  { calmWorld (fun _ _ => "ns-none") with stat := fun path => path == "/var/secrets/kubeconfig" }

/-- An unauthenticated `GET /api/vclusters`. -/
def listRequest : Request where
  method := "GET"
  parseMultipartForm := none
  formValue := fun _ => ""
  formFile := .error "http: no such file"
  basicAuth := none
  header := fun _ => ""

/-- A request carrying the forwarded identity `alice` and blank basic-auth
credentials. -/
def aliceRequest : Request :=
  { listRequest with
    basicAuth := some ("", "")
    header := fun k => if k = "X-Forwarded-User" then "alice" else "" }

/-- Subprocess output of a cluster whose load balancer is ready while
`vcluster connect --print` prints text that is not a kubeconfig. -/
def brokenOut (c : Cmd) (_ : Nat) : String :=
  if c = getSvcTypeCmd "" "demo" then "LoadBalancer"
  else if c = getSvcCmd "" "demo" then "svc-ready"
  else if c = pollSvcCmd "" "demo" then "svc-ready"
  else "not-a-kubeconfig"

/-- A world in which every subprocess succeeds and prints `brokenOut`; the
endpoint poll receives two ticks before its deadline. -/
def brokenWorld : World := pollingWorld brokenOut

/-- A host on which the namespace enumeration succeeds and lists `default`,
`vcluster-demo` and `vcluster-other`, while every other subprocess fails. -/
def lookupFailWorld : World :=
  { calmWorld (fun _ _ => "") with
    exec := fun c _ =>
      if c = getNamespacesCmd "" then ⟨"ns-two", none⟩ else ⟨"", some "exit status 1"⟩ }

/-- Subprocess output like `inventoryOut` on a host whose only namespaces are
`vcluster-demo` and `vcluster-other`. -/
def pairOut (c : Cmd) (n : Nat) : String :=
  if c = getNamespacesCmd "" then "ns-pair" else inventoryOut c n

/-! ## Basic facts -/

@[simp] theorem Run.after_val {α : Type} (pre : List Event) (r : Run α) :
    (r.after pre).val = r.val := rfl

@[simp] theorem Run.after_trace {α : Type} (pre : List Event) (r : Run α) :
    (r.after pre).trace = pre ++ r.trace := rfl

theorem pollSnapshot_eq_endpointURI (svc : ServiceJSON) (ing : Ingress) (ings : List Ingress)
    (p : ServicePort) (ps : List ServicePort) (hi : svc.ingress = ing :: ings)
    (hp : svc.ports = p :: ps) (hpop : ing.ip ≠ "" ∨ ing.hostname ≠ "") :
    pollSnapshot svc = some (endpointURI (if ing.ip ≠ "" then ing.ip else ing.hostname) p.port) := by
  unfold pollSnapshot endpointURI
  rw [hi, hp]
  by_cases h1 : ing.ip = ""
  · have h2 : ing.hostname ≠ "" := by
      rcases hpop with h | h
      · exact absurd h1 h
      · exact h
    by_cases h3 : p.port = 443 <;> simp [h1, h2, h3]
  · by_cases h3 : p.port = 443 <;> simp [h1, h3]

theorem externalEndpointOf_eq_endpointURI (svc : ServiceJSON) (ing : Ingress) (ings : List Ingress)
    (p : ServicePort) (ps : List ServicePort) (hi : svc.ingress = ing :: ings)
    (hp : svc.ports = p :: ps) (hpop : ing.ip ≠ "" ∨ ing.hostname ≠ "") :
    externalEndpointOf svc =
      .ok (endpointURI (if ing.ip ≠ "" then ing.ip else ing.hostname) p.port) := by
  unfold externalEndpointOf endpointURI
  rw [hi, hp]
  by_cases h1 : ing.ip = ""
  · have h2 : ing.hostname ≠ "" := by
      rcases hpop with h | h
      · exact absurd h1 h
      · exact h
    by_cases h3 : p.port = 443 <;> simp [h1, h2, h3]
  · by_cases h3 : p.port = 443 <;> simp [h1, h3]

/-- The poll returns the endpoint of the first tick that derives one. -/
theorem pollLoop_first (L : Lib) (w : World) (c : Cmd) (e : String) :
    ∀ (k ticks i : Nat), k < ticks →
      (∀ j, j < k → pollTick L (w.exec c (i + j)) = none) →
      pollTick L (w.exec c (i + k)) = some e →
      (pollLoop L w c ticks i).val = .ok e := by
  intro k
  induction k with
  | zero =>
    intro ticks i hk _ hlast
    cases ticks with
    | zero => omega
    | succ t =>
      simp only [Nat.add_zero] at hlast
      simp [pollLoop, hlast]
  | succ k ih =>
    intro ticks i hk hnone hlast
    cases ticks with
    | zero => omega
    | succ t =>
      have h0 : pollTick L (w.exec c i) = none := by
        have := hnone 0 (Nat.succ_pos k)
        simpa using this
      have hrec : (pollLoop L w c t (i + 1)).val = .ok e := by
        apply ih t (i + 1) (by omega)
        · intro j hj
          have := hnone (j + 1) (by omega)
          rw [show i + 1 + j = i + (j + 1) by omega]
          exact this
        · rw [show i + 1 + k = i + (k + 1) by omega]
          exact hlast
      simp [pollLoop, h0, hrec]

/-- When no tick derives an endpoint, the poll runs its command once per tick
and fails with the timeout error. -/
theorem pollLoop_timeout (L : Lib) (w : World) (c : Cmd) :
    ∀ (ticks i : Nat), (∀ j, j < ticks → pollTick L (w.exec c (i + j)) = none) →
      pollLoop L w c ticks i =
        ⟨.error "timed out waiting for external endpoint", List.replicate ticks (.exec c)⟩ := by
  intro ticks
  induction ticks with
  | zero => intro i _; rfl
  | succ t ih =>
    intro i hnone
    have h0 : pollTick L (w.exec c i) = none := by
      have := hnone 0 (Nat.succ_pos t)
      simpa using this
    have hrec := ih (i + 1) (by
      intro j hj
      have := hnone (j + 1) (by omega)
      rw [show i + 1 + j = i + (j + 1) by omega]
      exact this)
    simp [pollLoop, h0, hrec, Run.after, List.replicate_succ]

theorem mapGet_mapSet_same {κ : Type} [DecidableEq κ] (m : List (κ × YamlValue)) (k : κ)
    (v : YamlValue) : mapGet (mapSet m k v) k = some v := by
  induction m with
  | nil => simp [mapSet, mapGet]
  | cons a rest ih =>
    obtain ⟨k0, v0⟩ := a
    by_cases h : k0 = k
    · simp [mapSet, mapGet, h]
    · simp [mapSet, mapGet, h, ih]

theorem mapGet_mapSet_other {κ : Type} [DecidableEq κ] (m : List (κ × YamlValue)) (k k2 : κ)
    (v : YamlValue) (hne : k2 ≠ k) : mapGet (mapSet m k v) k2 = mapGet m k2 := by
  have hne2 : ¬ k = k2 := fun h => hne h.symm
  induction m with
  | nil => simp [mapSet, mapGet, hne2]
  | cons a rest ih =>
    obtain ⟨k0, v0⟩ := a
    by_cases h : k0 = k
    · subst h
      simp [mapSet, mapGet, hne2]
    · by_cases h2 : k0 = k2
      · subst h2
        simp [mapSet, mapGet, h]
      · simp [mapSet, mapGet, h, h2, ih]

theorem mapSet_mapSet {κ : Type} [DecidableEq κ] (m : List (κ × YamlValue)) (k : κ)
    (v v2 : YamlValue) : mapSet (mapSet m k v) k v2 = mapSet m k v2 := by
  induction m with
  | nil => simp [mapSet]
  | cons a rest ih =>
    obtain ⟨k0, v0⟩ := a
    by_cases h : k0 = k
    · simp [mapSet, h]
    · simp [mapSet, h, ih]

theorem mapUpdated_mapSet {κ : Type} [DecidableEq κ] (m : List (κ × YamlValue)) (k : κ)
    (v : YamlValue) : MapUpdated m (mapSet m k v) k v :=
  ⟨mapGet_mapSet_same m k v, fun k2 h => mapGet_mapSet_other m k k2 v h⟩

theorem rewriteClusterEntry_idem (e : String) (c : YamlValue) :
    rewriteClusterEntry e (rewriteClusterEntry e c) = rewriteClusterEntry e c := by
  cases c with
  | scalar k => rfl
  | seq items => rfl
  | map m =>
    cases hg : mapGet m (.str "cluster") with
    | none => simp [rewriteClusterEntry, hg]
    | some v =>
      cases v with
      | scalar k => simp [rewriteClusterEntry, hg]
      | seq items => simp [rewriteClusterEntry, hg]
      | map cd => simp [rewriteClusterEntry, hg, mapGet_mapSet_same, mapSet_mapSet]

theorem entryRewritten_rewriteClusterEntry (e : String) (c : YamlValue)
    (h : ∃ m cd, c = .map m ∧ mapGet m (.str "cluster") = some (.map cd)) :
    EntryRewritten e c (rewriteClusterEntry e c) := by
  obtain ⟨m, cd, hc, hg⟩ := h
  subst hc
  refine ⟨m, cd, _, _, rfl, hg, ?_, mapUpdated_mapSet m _ _, mapUpdated_mapSet cd _ _⟩
  simp [rewriteClusterEntry, hg]

theorem toyYamlMarshal_total (d : YamlConfig) : ∃ b, toyYamlMarshal d = .ok b := by
  unfold toyYamlMarshal
  split
  · exact ⟨_, rfl⟩
  · exact ⟨_, rfl⟩

theorem toyYamlMarshal_external (d : YamlConfig) (h : toyYamlMarshal d = .ok "kc-external") :
    d = docExternal := by
  unfold toyYamlMarshal at h
  split at h
  · rfl
  · simp at h

theorem secretAttempt_of_notReady (L : Lib) (r : CmdResult) (h : notReady L r = true) :
    secretAttempt L r = none := by
  unfold notReady at h
  unfold secretAttempt
  cases he : r.err with
  | some err => rfl
  | none =>
    simp only [he] at h
    by_cases ht : trimSpace r.out = ""
    · simp [ht]
    · cases hd : L.base64DecodeString (trimSpace r.out) with
      | error err => simp [ht, hd]
      | ok decoded => simp [ht, hd] at h

/-- When no attempt obtains a credential, the secret loop runs its command
once more than it receives ticks and fails with the timeout error. -/
theorem secretLoop_timeout (L : Lib) (w : World) (c : Cmd) (cn : String) :
    ∀ (ticks i : Nat), (∀ j, j ≤ ticks → secretAttempt L (w.exec c (i + j)) = none) →
      secretLoop L w c cn ticks i =
        ⟨.error (secretTimeoutError cn), List.replicate (ticks + 1) (.exec c)⟩ := by
  intro ticks
  induction ticks with
  | zero =>
    intro i hnone
    have h0 : secretAttempt L (w.exec c i) = none := by simpa using hnone 0 (Nat.le_refl 0)
    simp [secretLoop, h0]
  | succ t ih =>
    intro i hnone
    have h0 : secretAttempt L (w.exec c i) = none := by simpa using hnone 0 (Nat.zero_le _)
    have hrec := ih (i + 1) (by
      intro j hj
      have := hnone (j + 1) (by omega)
      rw [show i + 1 + j = i + (j + 1) by omega]
      exact this)
    simp [secretLoop, h0, hrec, Run.after, List.replicate_succ]

/-- An error of the secret loop is the timeout error, returned after every
tick was received and every attempt obtained nothing. -/
theorem secretLoop_error (L : Lib) (w : World) (c : Cmd) (cn : String) :
    ∀ (ticks i : Nat) (msg : String), (secretLoop L w c cn ticks i).val = .error msg →
      msg = secretTimeoutError cn ∧
      (secretLoop L w c cn ticks i).trace = List.replicate (ticks + 1) (.exec c) ∧
      ∀ j, j ≤ ticks → secretAttempt L (w.exec c (i + j)) = none := by
  intro ticks
  induction ticks with
  | zero =>
    intro i msg h
    cases h0 : secretAttempt L (w.exec c i) with
    | some kc => simp [secretLoop, h0] at h
    | none =>
      simp only [secretLoop, h0, Except.error.injEq] at h
      refine ⟨h.symm, by simp [secretLoop, h0], ?_⟩
      intro j hj
      have : j = 0 := by omega
      subst this
      simpa using h0
  | succ t ih =>
    intro i msg h
    cases h0 : secretAttempt L (w.exec c i) with
    | some kc => simp [secretLoop, h0] at h
    | none =>
      simp only [secretLoop, h0, Run.after_val] at h
      obtain ⟨hm, htr, hall⟩ := ih (i + 1) msg h
      refine ⟨hm, by simp [secretLoop, h0, htr, List.replicate_succ], ?_⟩
      intro j hj
      cases j with
      | zero => simpa using h0
      | succ j =>
        have := hall j (by omega)
        rw [show i + (j + 1) = i + 1 + j by omega]
        exact this

/-- When every attempt fails, the connect loop runs its command once more
than it receives ticks and ends in its deadline case. -/
theorem connectLoop_timeout (w : World) (c : Cmd) :
    ∀ (ticks i : Nat), (∀ j, j ≤ ticks → (w.exec c (i + j)).err ≠ none) →
      connectLoop w c ticks i = ⟨none, List.replicate (ticks + 1) (.exec c)⟩ := by
  intro ticks
  induction ticks with
  | zero =>
    intro i hfail
    have h0 : (w.exec c i).err ≠ none := by simpa using hfail 0 (Nat.le_refl 0)
    cases he : (w.exec c i).err with
    | none => exact absurd he h0
    | some err => simp [connectLoop, he]
  | succ t ih =>
    intro i hfail
    have h0 : (w.exec c i).err ≠ none := by simpa using hfail 0 (Nat.zero_le _)
    have hrec := ih (i + 1) (by
      intro j hj
      have := hfail (j + 1) (by omega)
      rw [show i + 1 + j = i + (j + 1) by omega]
      exact this)
    cases he : (w.exec c i).err with
    | none => exact absurd he h0
    | some err => simp [connectLoop, he, hrec, Run.after, List.replicate_succ]

/-- When endpoint resolution fails, the credentials are left as retrieved. -/
theorem patchKubeconfig_of_poll_error (L : Lib) (w : World) (hk cn kcData msg : String)
    (lb : Bool) (hpoll : (pollForExternalEndpoint L w hk cn).val = .error msg) :
    (patchKubeconfig L w hk cn lb kcData).val = kcData := by
  unfold patchKubeconfig
  cases lb with
  | false => rfl
  | true => simp [hpoll]

theorem patchKubeconfig_trace_true (L : Lib) (w : World) (hk cn kcData : String) :
    (patchKubeconfig L w hk cn true kcData).trace = (pollForExternalEndpoint L w hk cn).trace := by
  unfold patchKubeconfig
  simp only [if_true]
  split
  · split
    · split <;> rfl
    · rfl
  · rfl

theorem writeKubeconfig_ok (w : World) (wd cn kcData : String)
    (hmk : w.mkdirAll (filepathJoin [wd, ".vcluster", cn]) = none)
    (hwr : w.writeFile (filepathJoin [filepathJoin [wd, ".vcluster", cn], "kubeconfig.yaml"])
      kcData = none) :
    writeKubeconfig w wd cn kcData =
      ⟨none, [.mkdirAll (filepathJoin [wd, ".vcluster", cn]),
        .writeFile (filepathJoin [filepathJoin [wd, ".vcluster", cn], "kubeconfig.yaml"]) kcData]⟩ := by
  unfold writeKubeconfig
  simp only [hmk, hwr]

theorem filterEnv_skip_eq_any (e : String) (keys : List String) :
    filterEnv.skip e keys = keys.any (fun k => hasPrefixGo e (k ++ "=")) := by
  induction keys with
  | nil => rfl
  | cons key rest ih =>
    by_cases h : hasPrefixGo e (key ++ "=") = true
    · simp [filterEnv.skip, h]
    · simp [filterEnv.skip, h, ih]

theorem filterEnv_eq_keptEntries (env keys : List String) :
    filterEnv env keys = keptEntries env keys := by
  induction env with
  | nil => rfl
  | cons e es ih =>
    unfold keptEntries at ih ⊢
    by_cases h : filterEnv.skip e keys = true
    · have h2 := h
      rw [filterEnv_skip_eq_any] at h2
      simp [filterEnv, h, h2, ih]
    · have h2 := h
      rw [filterEnv_skip_eq_any] at h2
      simp only [filterEnv, h, List.filter_cons, h2, ih]
      simp

theorem withWorkloadStatus_fields (L : Lib) (out : String) (info : VclusterInfo) :
    (withWorkloadStatus L out info).name = info.name ∧
    (withWorkloadStatus L out info).namespaceName = info.namespaceName ∧
    (withWorkloadStatus L out info).owner = info.owner := by
  unfold withWorkloadStatus
  split <;> exact ⟨rfl, rfl, rfl⟩

theorem withLoadBalancer_fields (L : Lib) (w : World) (k : Nat) (hk cn : String)
    (info : VclusterInfo) :
    (withLoadBalancer L w k hk cn info).val.name = info.name ∧
    (withLoadBalancer L w k hk cn info).val.namespaceName = info.namespaceName ∧
    (withLoadBalancer L w k hk cn info).val.owner = info.owner ∧
    (withLoadBalancer L w k hk cn info).val.status = info.status := by
  unfold withLoadBalancer
  dsimp only
  split
  · exact ⟨rfl, rfl, rfl, rfl⟩
  · split
    · exact ⟨rfl, rfl, rfl, rfl⟩
    · split
      · split
        · split <;> exact ⟨rfl, rfl, rfl, rfl⟩
        · exact ⟨rfl, rfl, rfl, rfl⟩
      · exact ⟨rfl, rfl, rfl, rfl⟩

theorem kubeconfig_entry_defines_none (hk : String) :
    hasPrefixGo ("KUBECONFIG=" ++ hk) "KUBERNETES_SERVICE_HOST=" = false ∧
    hasPrefixGo ("KUBECONFIG=" ++ hk) "KUBERNETES_SERVICE_PORT=" = false ∧
    hasPrefixGo ("KUBECONFIG=" ++ hk) "KUBERNETES_PORT=" = false := by
  obtain ⟨d⟩ := hk
  refine ⟨?_, ?_, ?_⟩ <;> rfl

theorem mem_keptEntries (env keys : List String) (e : String) :
    e ∈ keptEntries env keys ↔ e ∈ env ∧ ∀ k ∈ keys, hasPrefixGo e (k ++ "=") = false := by
  unfold keptEntries
  simp [List.mem_filter]

theorem goElems_foldl_goAppend {α : Type} (xs : List α) :
    ∀ c : GoSlice α, goElems (xs.foldl goAppend c) = goElems c ++ xs := by
  induction xs with
  | nil => intro c; simp
  | cons x rest ih =>
    intro c
    rw [List.foldl_cons, ih]
    cases c with
    | none => simp [goAppend, goElems]
    | some ys => simp [goAppend, goElems]

theorem foldl_goAppend_none_eq_none {α : Type} (xs : List α) :
    xs.foldl goAppend (none : GoSlice α) = none ↔ xs = [] := by
  cases xs with
  | nil => simp
  | cons x rest =>
    have h := goElems_foldl_goAppend (x :: rest) (none : GoSlice α)
    constructor
    · intro hn
      rw [hn] at h
      simp [goElems] at h
    · intro hn
      cases hn

theorem visibleTo_iff (u : String) (info : VclusterInfo) :
    visibleTo u info = true ↔
      (u = "default" ∨ u = "admin" ∨ info.owner = "" ∨ info.owner = u) := by
  unfold visibleTo
  by_cases h1 : u = "admin"
  · simp [h1]
  · by_cases h2 : u = "default"
    · simp [h2]
    · simp [h1, h2]

theorem trimPrefixGo_append (s p : String) (h : hasPrefixGo s p = true) :
    p ++ trimPrefixGo s p = s := by
  unfold trimPrefixGo
  rw [if_pos h]
  unfold hasPrefixGo at h
  obtain ⟨t, ht⟩ := List.isPrefixOf_iff_prefix.mp h
  apply String.ext
  rw [String.data_append]
  show p.data ++ List.drop p.data.length s.data = s.data
  rw [← ht, List.drop_left]

theorem getVclusterInfo_ok (L : Lib) (w : World) (k : Nat) (hk cn : String) (t : Time)
    (u : String) :
    ∃ info, (getVclusterInfo L w k hk cn t u).val = .ok info ∧ info.name = cn ∧
      info.namespaceName = "vcluster-" ++ cn ∧
      info.owner = (getClusterOwner w (2 * k) hk cn).val := by
  cases he : (w.exec (getStsCmd hk cn) k).err with
  | some err =>
    unfold getVclusterInfo
    simp only [he]
    exact ⟨_, rfl, rfl, rfl, rfl⟩
  | none =>
    unfold getVclusterInfo
    simp only [he]
    refine ⟨_, rfl, ?_, ?_, ?_⟩
    · rw [(withLoadBalancer_fields L w k hk cn _).1, (withWorkloadStatus_fields L _ _).1]
    · rw [(withLoadBalancer_fields L w k hk cn _).2.1, (withWorkloadStatus_fields L _ _).2.1]
    · rw [(withLoadBalancer_fields L w k hk cn _).2.2.1, (withWorkloadStatus_fields L _ _).2.2]

/-- The record built for a namespace carries the namespace name without its
prefix, the derived namespace, and the looked-up owner. -/
theorem record_fields (L : Lib) (w : World) (hk u : String) (k : Nat) (ns : NamespaceJSON) :
    (listVclusters.record L w hk u k ns).val.name = trimPrefixGo ns.name "vcluster-" ∧
    (listVclusters.record L w hk u k ns).val.namespaceName =
      "vcluster-" ++ (listVclusters.record L w hk u k ns).val.name ∧
    (listVclusters.record L w hk u k ns).val.owner =
      (getClusterOwner w (2 * k) hk (trimPrefixGo ns.name "vcluster-")).val := by
  obtain ⟨info, hv, hn, hs, ho⟩ :=
    getVclusterInfo_ok L w k hk (trimPrefixGo ns.name "vcluster-") ns.creationTimestamp u
  have hr : (listVclusters.record L w hk u k ns).val = info := by
    unfold listVclusters.record
    simp only [hv]
  rw [hr, hn]
  exact ⟨rfl, hs, ho⟩

theorem consideredRecords_cons (L : Lib) (w : World) (hk u : String) (ns : NamespaceJSON)
    (rest : List NamespaceJSON) (k : Nat) :
    consideredRecords L w hk u (ns :: rest) k =
      if hasPrefixGo ns.name "vcluster-" = true then
        (listVclusters.record L w hk u k ns).val :: consideredRecords L w hk u rest (k + 1)
      else consideredRecords L w hk u rest (k + 1) := by
  unfold consideredRecords
  by_cases h : hasPrefixGo ns.name "vcluster-" = true
  · simp [List.enumFrom_cons, h]
  · simp [List.enumFrom_cons, h]

/-- The loop of `listVclusters` appends to its slice the considered records
that pass the visibility rule, in order. -/
theorem listVclusters_loop_val (L : Lib) (w : World) (hk u : String) :
    ∀ (items : List NamespaceJSON) (k : Nat) (c : GoSlice VclusterInfo),
      (listVclusters.loop L w hk u items k c).val =
        ((consideredRecords L w hk u items k).filter (visibleTo u)).foldl goAppend c := by
  intro items
  induction items with
  | nil => intro k c; rfl
  | cons ns rest ih =>
    intro k c
    rw [consideredRecords_cons]
    unfold listVclusters.loop
    by_cases h : hasPrefixGo ns.name "vcluster-" = true
    · have hf : ¬ (hasPrefixGo ns.name "vcluster-" = false) := by simp [h]
      simp only [hf, if_false, h, if_true]
      by_cases hv : visibleTo u (listVclusters.record L w hk u k ns).val = true
      · have hc := (visibleTo_iff u _).1 hv
        simp only [hc, if_true, Run.after_val, ih, List.filter_cons, hv, List.foldl_cons]
        simp [ih]
      · have hc : ¬ (u = "default" ∨ u = "admin" ∨
            (listVclusters.record L w hk u k ns).val.owner = "" ∨
            (listVclusters.record L w hk u k ns).val.owner = u) :=
          fun hc => hv ((visibleTo_iff u _).2 hc)
        simp only [hc, if_false, Run.after_val, ih, List.filter_cons, hv]
        simp [ih]
    · have hf : hasPrefixGo ns.name "vcluster-" = false := by simpa using h
      simp only [hf, if_true, ih]
      simp

theorem consideredRecords_names (L : Lib) (w : World) (hk u : String) :
    ∀ (items : List NamespaceJSON) (k : Nat),
      (consideredRecords L w hk u items k).map (fun info => info.name) =
        (items.filter (fun ns => hasPrefixGo ns.name "vcluster-")).map
          (fun ns => trimPrefixGo ns.name "vcluster-") := by
  intro items
  induction items with
  | nil => intro k; rfl
  | cons ns rest ih =>
    intro k
    rw [consideredRecords_cons]
    by_cases h : hasPrefixGo ns.name "vcluster-" = true
    · simp [h, ih, (record_fields L w hk u k ns).1]
    · simp [h, ih]

theorem consideredRecords_namespace (L : Lib) (w : World) (hk u : String) :
    ∀ (items : List NamespaceJSON) (k : Nat) (info : VclusterInfo),
      info ∈ consideredRecords L w hk u items k →
      info.namespaceName = "vcluster-" ++ info.name := by
  intro items
  induction items with
  | nil => intro k info h; simp [consideredRecords] at h
  | cons ns rest ih =>
    intro k info h
    rw [consideredRecords_cons] at h
    by_cases hp : hasPrefixGo ns.name "vcluster-" = true
    · simp only [hp, if_true, List.mem_cons] at h
      rcases h with h | h
      · rw [h]
        exact (record_fields L w hk u k ns).2.1
      · exact ih (k + 1) info h
    · simp only [hp, if_false] at h
      exact ih (k + 1) info h

/-- With the enumeration read and parsed, `listVclusters` succeeds and its
records are the considered ones that pass the visibility rule. -/
theorem listVclusters_ok (L : Lib) (w : World) (hk u : String) (items : List NamespaceJSON)
    (h1 : (w.exec (getNamespacesCmd hk) 0).err = none)
    (h2 : L.jsonUnmarshalNamespaceList (w.exec (getNamespacesCmd hk) 0).out = .ok items) :
    (listVclusters L w hk u).val =
      .ok (((consideredRecords L w hk u items 0).filter (visibleTo u)).foldl goAppend none) := by
  unfold listVclusters
  simp only [h1, h2, listVclusters_loop_val]

/-- When the endpoint is resolved and the rewrite fails, the credentials
handed on are the `nil` slice that the failed rewrite returned. -/
theorem patchKubeconfig_of_update_error (L : Lib) (w : World) (hk cn kcData e msg : String)
    (hpoll : (pollForExternalEndpoint L w hk cn).val = .ok e) (hne : e ≠ "")
    (hupd : updateKubeconfigEndpoint L kcData e = .error msg) :
    (patchKubeconfig L w hk cn true kcData).val = "" := by
  unfold patchKubeconfig
  simp [hpoll, hne, hupd]

/-- A `GET` on the listing endpoint is always answered with status 200 and a
JSON body; the body is `null` exactly when credentials are present, the
listing succeeds and it returns the `nil` slice. -/
theorem vclustersListHandler_get (L : Lib) (w : World) (r : Request) (h : r.method = "GET") :
    ∃ body, (vclustersListHandler L w r).val = .listing body ∧
      (body = .null ↔ getDefaultKubeconfig w ≠ "" ∧
        (listVclusters L w (getDefaultKubeconfig w) (getUserFromRequest r)).val = .ok none) := by
  unfold vclustersListHandler
  simp only [h, ne_eq, not_true_eq_false, if_false]
  by_cases hk : getDefaultKubeconfig w = ""
  · simp [hk, jsonEncodeClusters]
  · simp only [hk, if_false]
    cases hl : (listVclusters L w (getDefaultKubeconfig w) (getUserFromRequest r)).val with
    | error msg => simp [jsonEncodeClusters]
    | ok s =>
      cases s with
      | none => simp [jsonEncodeClusters]
      | some xs => simp [jsonEncodeClusters]

/-! ## Theorems -/

/-- C10: for every cluster name, HA flag and load-balancer flag, the
configuration generated by `createVclusterYAML` has `spec.replicas` equal to 3
if HA is requested and to 1 otherwise: there is one configuration with this
replica count (and the given name) that the function hands to the YAML
encoder whatever the encoder and the world are; when the encoder returns
`data` the function performs exactly one action, the write of `data` to
`vcluster.yaml` in the working directory, and returns no error when that write
succeeds; and nothing else is ever written. -/
theorem createVclusterYAML_replicas (workingDir clusterName : String)
    (ha useLoadBalancer : Bool) :
    ∃ cfg : VclusterConfig,
      cfg.specReplicas = (if ha then 3 else 1) ∧ cfg.metadataName = clusterName ∧
      (∀ (L : Lib) (w : World) (data : String), L.yamlMarshalVclusterConfig cfg = .ok data →
        (createVclusterYAML L w workingDir clusterName ha useLoadBalancer).trace =
          [.writeFile (filepathJoin [workingDir, "vcluster.yaml"]) data] ∧
        (w.writeFile (filepathJoin [workingDir, "vcluster.yaml"]) data = none →
          (createVclusterYAML L w workingDir clusterName ha useLoadBalancer).val = none)) ∧
      (∀ (L : Lib) (w : World) (path data : String),
        Event.writeFile path data ∈
          (createVclusterYAML L w workingDir clusterName ha useLoadBalancer).trace →
        path = filepathJoin [workingDir, "vcluster.yaml"] ∧
        L.yamlMarshalVclusterConfig cfg = .ok data) := by
  refine ⟨vclusterConfigFor clusterName ha useLoadBalancer, rfl, rfl, ?_, ?_⟩
  · intro L w data hd
    unfold createVclusterYAML
    simp only [hd]
    cases hw : w.writeFile (filepathJoin [workingDir, "vcluster.yaml"]) data with
    | none => exact ⟨rfl, fun _ => rfl⟩
    | some err => exact ⟨rfl, fun h => by cases h⟩
  · intro L w path data hmem
    unfold createVclusterYAML at hmem
    split at hmem
    · simp at hmem
    · rename_i d hd
      dsimp only at hmem
      split at hmem <;> simp at hmem <;> exact ⟨hmem.1, by rw [hd, hmem.2]⟩

/-- Instance of C10: an HA request for `demo` performs the single write of a
file that the encoder rendered from a configuration with three replicas, and a
request without HA one rendered with a single replica. -/
theorem createVclusterYAML_replicas_witness :
    (createVclusterYAML toyLib (calmWorld internalOut) "requests/42" "demo" true false).trace =
      [.writeFile "requests/42/vcluster.yaml" "name: demo\nreplicas: 3\n"] ∧
    (createVclusterYAML toyLib (calmWorld internalOut) "requests/42" "demo" true false).val = none ∧
    (createVclusterYAML toyLib (calmWorld internalOut) "requests/42" "demo" false false).trace =
      [.writeFile "requests/42/vcluster.yaml" "name: demo\nreplicas: 1\n"] := by
  obtain ⟨cfg, hr, hn, h, _⟩ := createVclusterYAML_replicas "requests/42" "demo" true false
  obtain ⟨cfg1, hr1, hn1, h1, _⟩ := createVclusterYAML_replicas "requests/42" "demo" false false
  have hm : toyLib.yamlMarshalVclusterConfig cfg = .ok "name: demo\nreplicas: 3\n" := by
    show Except.ok ("name: " ++ cfg.metadataName ++ "\nreplicas: " ++
      strconvItoa cfg.specReplicas ++ "\n") = _
    rw [hn, hr]
    rfl
  have hm1 : toyLib.yamlMarshalVclusterConfig cfg1 = .ok "name: demo\nreplicas: 1\n" := by
    show Except.ok ("name: " ++ cfg1.metadataName ++ "\nreplicas: " ++
      strconvItoa cfg1.specReplicas ++ "\n") = _
    rw [hn1, hr1]
    rfl
  exact ⟨(h toyLib (calmWorld internalOut) _ hm).1, (h toyLib (calmWorld internalOut) _ hm).2 rfl,
    (h1 toyLib (calmWorld internalOut) _ hm1).1⟩

/-- C3: for every host and every port, the endpoint URI built on the internal
path (`getClusterIPEndpoint`) and on the external paths (`getExternalEndpoint`,
`pollForExternalEndpoint`) is `https://` followed by the host when the port is
443, and followed by the host, a colon and the decimal port otherwise. -/
theorem endpoint_canonical (host : String) (port : Int) (hhost : host ≠ "") :
    (∀ (L : Lib) (w : World) (hk cn : String) (ings : List Ingress) (rest : List ServicePort),
      (w.exec (getSvcCmd hk cn) 0).err = none →
      L.jsonUnmarshalService (w.exec (getSvcCmd hk cn) 0).out = .ok ⟨ings, ⟨port⟩ :: rest⟩ →
      (w.exec (getClusterIPCmd hk cn) 0).err = none →
      trimSpace (w.exec (getClusterIPCmd hk cn) 0).out = host →
      (getClusterIPEndpoint L w hk cn).val = .ok (endpointURI host port)) ∧
    (∀ (L : Lib) (w : World) (n : Nat) (hk cn : String) (ing : Ingress) (ings : List Ingress)
        (rest : List ServicePort),
      (ing.ip = host ∨ (ing.ip = "" ∧ ing.hostname = host)) →
      (w.exec (getSvcCmd hk cn) n).err = none →
      L.jsonUnmarshalService (w.exec (getSvcCmd hk cn) n).out = .ok ⟨ing :: ings, ⟨port⟩ :: rest⟩ →
      (getExternalEndpoint L w n hk cn).val = .ok (endpointURI host port)) ∧
    (∀ (L : Lib) (w : World) (k : Nat) (hk cn : String) (ing : Ingress) (ings : List Ingress)
        (rest : List ServicePort),
      (ing.ip = host ∨ (ing.ip = "" ∧ ing.hostname = host)) →
      k < w.pollTicks →
      (∀ j, j < k → pollTick L (w.exec (pollSvcCmd hk cn) j) = none) →
      (w.exec (pollSvcCmd hk cn) k).err = none →
      L.jsonUnmarshalService (w.exec (pollSvcCmd hk cn) k).out = .ok ⟨ing :: ings, ⟨port⟩ :: rest⟩ →
      (pollForExternalEndpoint L w hk cn).val = .ok (endpointURI host port)) := by
  have hsel : ∀ ing : Ingress, (ing.ip = host ∨ (ing.ip = "" ∧ ing.hostname = host)) →
      (ing.ip ≠ "" ∨ ing.hostname ≠ "") ∧ (if ing.ip ≠ "" then ing.ip else ing.hostname) = host := by
    intro ing h
    rcases h with h | ⟨h1, h2⟩
    · have : ing.ip ≠ "" := by rw [h]; exact hhost
      exact ⟨Or.inl this, by rw [if_pos this]; exact h⟩
    · have : ing.hostname ≠ "" := by rw [h2]; exact hhost
      exact ⟨Or.inr this, by rw [if_neg (not_not.mpr h1)]; exact h2⟩
  refine ⟨?_, ?_, ?_⟩
  · intro L w hk cn ings rest h1 h2 h3 h4
    unfold getClusterIPEndpoint endpointURI
    simp only [h1, h2, h3, h4]
    by_cases hp : port = 443 <;> simp [hhost, hp]
  · intro L w n hk cn ing ings rest hing h1 h2
    obtain ⟨hpop, hh⟩ := hsel ing hing
    unfold getExternalEndpoint
    simp only [h1, h2]
    rw [externalEndpointOf_eq_endpointURI _ ing ings ⟨port⟩ rest rfl rfl hpop, hh]
  · intro L w k hk cn ing ings rest hing hlt hnone h1 h2
    obtain ⟨hpop, hh⟩ := hsel ing hing
    unfold pollForExternalEndpoint
    apply pollLoop_first L w _ _ k w.pollTicks 0 hlt
    · intro j hj
      rw [Nat.zero_add]
      exact hnone j hj
    · rw [Nat.zero_add]
      unfold pollTick
      simp only [h1, h2]
      rw [pollSnapshot_eq_endpointURI _ ing ings ⟨port⟩ rest rfl rfl hpop, hh]

/-- Instance of C3: a cluster IP on port 8443 and a load-balancer IP on port
443, on the internal path, the single-attempt external path and the poll. -/
theorem endpoint_canonical_witness :
    (getClusterIPEndpoint toyLib (calmWorld internalOut) "" "demo").val = .ok "https://10.96.0.7:8443" ∧
    (getExternalEndpoint toyLib (calmWorld (fun _ _ => "svc-ready")) 0 "" "demo").val =
      .ok "https://1.2.3.4" ∧
    (pollForExternalEndpoint toyLib (pollingWorld (fun _ _ => "svc-ready")) "" "demo").val =
      .ok "https://1.2.3.4" :=
  ⟨(endpoint_canonical "10.96.0.7" 8443 (by decide)).1 toyLib (calmWorld internalOut) "" "demo"
      [⟨"", "lb.example.com"⟩] [⟨443⟩] rfl rfl rfl (by decide),
   (endpoint_canonical "1.2.3.4" 443 (by decide)).2.1 toyLib (calmWorld (fun _ _ => "svc-ready")) 0
      "" "demo" ⟨"1.2.3.4", ""⟩ [] [] (Or.inl rfl) rfl rfl,
   (endpoint_canonical "1.2.3.4" 443 (by decide)).2.2 toyLib
      (pollingWorld (fun _ _ => "svc-ready")) 0 "" "demo" ⟨"1.2.3.4", ""⟩ [] [] (Or.inl rfl)
      (by decide) (fun j hj => absurd hj (Nat.not_lt_zero j)) rfl rfl⟩

/-- C9, as stated, fails: the service `svcGap` has a populated ingress (its
second entry carries an IP) and declares a port, yet the single-attempt lookup
fails and the poll, reading the same snapshot at every tick, times out; only
the first ingress entry is ever read. -/
theorem external_resolution_ignores_later_entries :
    (∃ ing ∈ svcGap.ingress, ing.ip ≠ "" ∨ ing.hostname ≠ "") ∧
    svcGap.ports ≠ [] ∧
    toyLib.jsonUnmarshalService "svc-gap" = .ok svcGap ∧
    (getExternalEndpoint toyLib (calmWorld (fun _ _ => "svc-gap")) 0 "" "demo").val =
      .error "no valid external endpoint" ∧
    (pollForExternalEndpoint toyLib (pollingWorld (fun _ _ => "svc-gap")) "" "demo").val =
      .error "timed out waiting for external endpoint" :=
  ⟨⟨⟨"1.2.3.4", ""⟩, by decide, by decide⟩, by decide, rfl, rfl, rfl⟩

/-- C9, amended: for every service snapshot whose first ingress entry carries
an IP or a host name and that declares at least one port, external resolution
returns the endpoint built from that first entry, its IP being taken when it
has both, paired with the first declared port: so does the derivation from a
snapshot on both paths, so does `getExternalEndpoint` when it reads this
snapshot, and so does `pollForExternalEndpoint` when a tick within its window
is the first to derive an endpoint and reads this snapshot. -/
theorem external_resolution_first_entry (svc : ServiceJSON) (ing : Ingress)
    (ings : List Ingress) (p : ServicePort) (ps : List ServicePort)
    (hi : svc.ingress = ing :: ings) (hp : svc.ports = p :: ps)
    (hpop : ing.ip ≠ "" ∨ ing.hostname ≠ "") :
    externalEndpointOf svc =
      .ok (endpointURI (if ing.ip ≠ "" then ing.ip else ing.hostname) p.port) ∧
    pollSnapshot svc =
      some (endpointURI (if ing.ip ≠ "" then ing.ip else ing.hostname) p.port) ∧
    (∀ (L : Lib) (w : World) (n : Nat) (hk cn : String),
      (w.exec (getSvcCmd hk cn) n).err = none →
      L.jsonUnmarshalService (w.exec (getSvcCmd hk cn) n).out = .ok svc →
      (getExternalEndpoint L w n hk cn).val =
        .ok (endpointURI (if ing.ip ≠ "" then ing.ip else ing.hostname) p.port)) ∧
    (∀ (L : Lib) (w : World) (k : Nat) (hk cn : String),
      k < w.pollTicks →
      (∀ j, j < k → pollTick L (w.exec (pollSvcCmd hk cn) j) = none) →
      (w.exec (pollSvcCmd hk cn) k).err = none →
      L.jsonUnmarshalService (w.exec (pollSvcCmd hk cn) k).out = .ok svc →
      (pollForExternalEndpoint L w hk cn).val =
        .ok (endpointURI (if ing.ip ≠ "" then ing.ip else ing.hostname) p.port)) := by
  refine ⟨externalEndpointOf_eq_endpointURI svc ing ings p ps hi hp hpop,
    pollSnapshot_eq_endpointURI svc ing ings p ps hi hp hpop, ?_, ?_⟩
  · intro L w n hk cn h1 h2
    unfold getExternalEndpoint
    simp only [h1, h2]
    exact externalEndpointOf_eq_endpointURI svc ing ings p ps hi hp hpop
  · intro L w k hk cn hlt hnone h1 h2
    unfold pollForExternalEndpoint
    apply pollLoop_first L w _ _ k w.pollTicks 0 hlt
    · intro j hj
      rw [Nat.zero_add]
      exact hnone j hj
    · rw [Nat.zero_add]
      unfold pollTick
      simp only [h1, h2]
      exact pollSnapshot_eq_endpointURI svc ing ings p ps hi hp hpop

/-- Instance of amended C9: a first entry with a host name only and the ports
8443 and 443 resolves to the host name with port 8443, on both paths. -/
theorem external_resolution_first_entry_witness :
    externalEndpointOf svcNamed = .ok "https://lb.example.com:8443" ∧
    pollSnapshot svcNamed = some "https://lb.example.com:8443" ∧
    (getExternalEndpoint toyLib (calmWorld (fun _ _ => "svc-named")) 0 "" "demo").val =
      .ok "https://lb.example.com:8443" ∧
    (pollForExternalEndpoint toyLib (pollingWorld (fun _ _ => "svc-named")) "" "demo").val =
      .ok "https://lb.example.com:8443" :=
  have h := external_resolution_first_entry svcNamed ⟨"", "lb.example.com"⟩ [] ⟨8443⟩ [⟨443⟩]
    rfl rfl (Or.inr (by decide))
  ⟨h.1, h.2.1,
   h.2.2.1 toyLib (calmWorld (fun _ _ => "svc-named")) 0 "" "demo" rfl rfl,
   h.2.2.2 toyLib (pollingWorld (fun _ _ => "svc-named")) 0 "" "demo" (by decide)
     (fun j hj => absurd hj (Nat.not_lt_zero j)) rfl rfl⟩

/-- C4: for every kubeconfig that parses as a mapping whose `clusters` key
holds a sequence of entries each with a nested `cluster` mapping, and every
endpoint `e`, `updateKubeconfigEndpoint` succeeds (the YAML encoder being
total) and returns the serialisation of a document that is the input with the
`server` field of every cluster entry set to `e` and no other key or value
changed. -/
theorem updateKubeconfigEndpoint_rewrites_server (L : Lib) (kcData : String)
    (config : YamlConfig) (cs : List YamlValue) (e : String)
    (hparse : L.yamlUnmarshal kcData = .ok config)
    (hcl : mapGet config "clusters" = some (.seq cs))
    (hwf : ∀ c ∈ cs, ∃ m cd, c = .map m ∧ mapGet m (.str "cluster") = some (.map cd))
    (hm : ∀ d, ∃ b, L.yamlMarshal d = .ok b) :
    ∃ out config2, updateKubeconfigEndpoint L kcData e = .ok out ∧
      L.yamlMarshal config2 = .ok out ∧ ServerRewritten e config config2 := by
  obtain ⟨out, hout⟩ := hm (mapSet config "clusters" (.seq (cs.map (rewriteClusterEntry e))))
  refine ⟨out, _, ?_, hout, cs, _, hcl, mapUpdated_mapSet config _ _, ?_⟩
  · unfold updateKubeconfigEndpoint
    simp only [hparse, hcl, hout]
  · rw [List.forall₂_map_right_iff, List.forall₂_same]
    intro c hc
    exact entryRewritten_rewriteClusterEntry e c (hwf c hc)

/-- Instance of C4: the one-entry kubeconfig `kc-local` is rewritten to the
document `docExternal`, whose only difference is the server field. -/
theorem updateKubeconfigEndpoint_rewrites_server_witness :
    updateKubeconfigEndpoint toyLib "kc-local" "https://1.2.3.4" = .ok "kc-external" ∧
    toyLib.yamlMarshal docExternal = .ok "kc-external" ∧
    ∃ out config2, updateKubeconfigEndpoint toyLib "kc-local" "https://1.2.3.4" = .ok out ∧
      toyLib.yamlMarshal config2 = .ok out ∧ ServerRewritten "https://1.2.3.4" docLocal config2 :=
  ⟨rfl, rfl, updateKubeconfigEndpoint_rewrites_server toyLib "kc-local" docLocal
    [.map [(.str "cluster", .map [(.str "server", .scalar (.str "https://localhost:8443"))])]]
    "https://1.2.3.4" rfl rfl
    (fun c hc => by
      rw [List.mem_singleton] at hc
      exact ⟨_, _, hc, rfl⟩)
    toyYamlMarshal_total⟩

/-- C5: for every kubeconfig (with a single cluster entry, or any number of
them) and every endpoint `e`, when `updateKubeconfigEndpoint` with `e` returns
`out` and `out` decodes back to the document it encodes, applying
`updateKubeconfigEndpoint` with `e` to `out` returns `out` again. -/
theorem updateKubeconfigEndpoint_idempotent (L : Lib) (kcData e out : String)
    (h1 : updateKubeconfigEndpoint L kcData e = .ok out)
    (hrt : ∀ d, L.yamlMarshal d = .ok out → L.yamlUnmarshal out = .ok d) :
    updateKubeconfigEndpoint L out e = .ok out := by
  unfold updateKubeconfigEndpoint at h1
  cases hp : L.yamlUnmarshal kcData with
  | error err => simp [hp] at h1
  | ok config =>
    simp only [hp] at h1
    cases hg : mapGet config "clusters" with
    | none => simp [hg] at h1
    | some v =>
      cases v with
      | scalar k => simp [hg] at h1
      | map m => simp [hg] at h1
      | seq cs =>
        simp only [hg] at h1
        cases hmar : L.yamlMarshal
            (mapSet config "clusters" (.seq (cs.map (rewriteClusterEntry e)))) with
        | error err => simp [hmar] at h1
        | ok b =>
          simp only [hmar, Except.ok.injEq] at h1
          subst h1
          have hback := hrt _ hmar
          unfold updateKubeconfigEndpoint
          simp only [hback, mapGet_mapSet_same, mapSet_mapSet, List.map_map]
          have hcomp : (rewriteClusterEntry e ∘ rewriteClusterEntry e) = rewriteClusterEntry e := by
            funext c
            exact rewriteClusterEntry_idem e c
          rw [hcomp, hmar]

/-- Instance of C5: rewriting `kc-local` gives `kc-external`, and rewriting
`kc-external` again gives `kc-external`. -/
theorem updateKubeconfigEndpoint_idempotent_witness :
    updateKubeconfigEndpoint toyLib "kc-local" "https://1.2.3.4" = .ok "kc-external" ∧
    updateKubeconfigEndpoint toyLib "kc-external" "https://1.2.3.4" = .ok "kc-external" :=
  ⟨rfl, updateKubeconfigEndpoint_idempotent toyLib "kc-local" "https://1.2.3.4" "kc-external" rfl
    (fun d hd => by rw [toyYamlMarshal_external d hd]; rfl)⟩

/-- C8: in every iteration of the polling loop of
`fetchKubeconfigFromSecretFallback`, a failed secret read, a credential field
that is empty after trimming, and a base64 decode failure obtain no
credential; while ticks remain the loop goes on with the next poll, and the
error is returned only in the iteration that meets the expired window.
Conversely, every error of the loop is the timeout error, returned after all
ticks of the window were received. -/
theorem secret_poll_continues (L : Lib) (w : World) (c : Cmd) (cn : String) (i : Nat)
    (h : notReady L (w.exec c i) = true) :
    secretAttempt L (w.exec c i) = none ∧
    (∀ ticks, secretLoop L w c cn (ticks + 1) i =
      (secretLoop L w c cn ticks (i + 1)).after [.exec c]) ∧
    secretLoop L w c cn 0 i = ⟨.error (secretTimeoutError cn), [.exec c]⟩ ∧
    (∀ (ticks j : Nat) (msg : String), (secretLoop L w c cn ticks j).val = .error msg →
      msg = secretTimeoutError cn ∧
      (secretLoop L w c cn ticks j).trace = List.replicate (ticks + 1) (.exec c) ∧
      ∀ t, t ≤ ticks → secretAttempt L (w.exec c (j + t)) = none) := by
  have h0 := secretAttempt_of_notReady L (w.exec c i) h
  refine ⟨h0, ?_, ?_, secretLoop_error L w c cn⟩
  · intro ticks
    simp [secretLoop, h0]
  · simp [secretLoop, h0]

/-- Instance of C8: a secret whose credential field is blank is polled again
after the first read and the loop fails only when its one tick is used up. -/
theorem secret_poll_continues_witness :
    notReady toyLib (blankSecretWorld.exec (secretCmd "" "demo") 0) = true ∧
    secretLoop toyLib blankSecretWorld (secretCmd "" "demo") "demo" 1 0 =
      (secretLoop toyLib blankSecretWorld (secretCmd "" "demo") "demo" 0 1).after
        [.exec (secretCmd "" "demo")] ∧
    secretLoop toyLib blankSecretWorld (secretCmd "" "demo") "demo" 0 0 =
      ⟨.error "timed out waiting for vcluster secret vc-demo in namespace vcluster-demo",
        [.exec (secretCmd "" "demo")]⟩ :=
  have h := secret_poll_continues toyLib blankSecretWorld (secretCmd "" "demo") "demo" 0
    (by decide)
  ⟨by decide, h.2.1 0, h.2.2.1⟩

/-- C1: in `fetchAndPatchKubeconfigFromSecret`, if every `vcluster connect
--print` attempt fails until the retry window expires, the function continues
as `fetchKubeconfigFromSecretFallback`; if that path obtains no credential
before its own window expires either, the function returns the timed-out error
and no file is written: the only actions are the connect and secret reads. -/
theorem fetch_falls_back_then_times_out (L : Lib) (w : World)
    (workingDir clusterName hostKubeconfig : String) (useLoadBalancer : Bool)
    (h1 : ∀ i, i ≤ w.connectTicks → (w.exec (connectCmd w hostKubeconfig clusterName) i).err ≠ none) :
    fetchAndPatchKubeconfigFromSecret L w workingDir clusterName hostKubeconfig useLoadBalancer =
      (fetchKubeconfigFromSecretFallback L w workingDir clusterName hostKubeconfig
        useLoadBalancer).after
        (List.replicate (w.connectTicks + 1) (.exec (connectCmd w hostKubeconfig clusterName))) ∧
    ((∀ j, j ≤ w.secretTicks →
        secretAttempt L (w.exec (secretCmd hostKubeconfig clusterName) j) = none) →
      (fetchAndPatchKubeconfigFromSecret L w workingDir clusterName hostKubeconfig
        useLoadBalancer).val = some (secretTimeoutError clusterName) ∧
      (fetchAndPatchKubeconfigFromSecret L w workingDir clusterName hostKubeconfig
        useLoadBalancer).trace =
        List.replicate (w.connectTicks + 1) (.exec (connectCmd w hostKubeconfig clusterName)) ++
        List.replicate (w.secretTicks + 1) (.exec (secretCmd hostKubeconfig clusterName)) ∧
      ∀ path data, Event.writeFile path data ∉
        (fetchAndPatchKubeconfigFromSecret L w workingDir clusterName hostKubeconfig
          useLoadBalancer).trace) := by
  have hc := connectLoop_timeout w (connectCmd w hostKubeconfig clusterName) w.connectTicks 0
    (by intro j hj; rw [Nat.zero_add]; exact h1 j hj)
  have hfst : fetchAndPatchKubeconfigFromSecret L w workingDir clusterName hostKubeconfig
      useLoadBalancer =
      (fetchKubeconfigFromSecretFallback L w workingDir clusterName hostKubeconfig
        useLoadBalancer).after
        (List.replicate (w.connectTicks + 1) (.exec (connectCmd w hostKubeconfig clusterName))) := by
    unfold fetchAndPatchKubeconfigFromSecret
    simp only [hc]
  refine ⟨hfst, ?_⟩
  intro h2
  have hs := secretLoop_timeout L w (secretCmd hostKubeconfig clusterName) clusterName
    w.secretTicks 0 (by intro j hj; rw [Nat.zero_add]; exact h2 j hj)
  have hfb : fetchKubeconfigFromSecretFallback L w workingDir clusterName hostKubeconfig
      useLoadBalancer = ⟨some (secretTimeoutError clusterName),
        List.replicate (w.secretTicks + 1) (.exec (secretCmd hostKubeconfig clusterName))⟩ := by
    unfold fetchKubeconfigFromSecretFallback
    simp only [hs]
  rw [hfst, hfb]
  refine ⟨rfl, rfl, ?_⟩
  intro path data hmem
  simp only [Run.after_trace, List.mem_append, List.mem_replicate] at hmem
  rcases hmem with ⟨_, h⟩ | ⟨_, h⟩ <;> cases h

/-- Instance of C1: with every subprocess failing, three connect attempts and
two secret reads are made, the timed-out error is returned and nothing is
written. -/
theorem fetch_falls_back_then_times_out_witness :
    (fetchAndPatchKubeconfigFromSecret toyLib failingWorld "requests/42" "demo" "" true).val =
      some "timed out waiting for vcluster secret vc-demo in namespace vcluster-demo" ∧
    (fetchAndPatchKubeconfigFromSecret toyLib failingWorld "requests/42" "demo" "" true).trace =
      List.replicate 3 (.exec (connectCmd failingWorld "" "demo")) ++
      List.replicate 2 (.exec (secretCmd "" "demo")) ∧
    ∀ path data, Event.writeFile path data ∉
      (fetchAndPatchKubeconfigFromSecret toyLib failingWorld "requests/42" "demo" "" true).trace :=
  (fetch_falls_back_then_times_out toyLib failingWorld "requests/42" "demo" "" true
    (fun _ _ => Option.some_ne_none _)).2 (fun _ _ => rfl)

/-- C6: when an external endpoint is wanted and resolving it fails, credential
retrieval goes on exactly as a write (or a response) of the retrieved document
and no rewrite is applied.  On the create path, after a successful connect and
after a successful secret read alike, a failed `pollForExternalEndpoint` leaves
the function equal to `writeKubeconfig` of the retrieved document, which
succeeds whenever the directory and the file can be written; on the read path
a failed `getExternalEndpoint` leaves the response body equal to the output of
`vcluster connect --print`. -/
theorem resolver_failure_keeps_credentials (L : Lib) (w : World) (wd cn hk : String) :
    (∀ kc msg, (connectLoop w (connectCmd w hk cn) w.connectTicks 0).val = some kc →
      (pollForExternalEndpoint L w hk cn).val = .error msg →
      fetchAndPatchKubeconfigFromSecret L w wd cn hk true =
        (writeKubeconfig w wd cn kc).after
          ((connectLoop w (connectCmd w hk cn) w.connectTicks 0).trace ++
            (pollForExternalEndpoint L w hk cn).trace) ∧
      (w.mkdirAll (filepathJoin [wd, ".vcluster", cn]) = none →
        w.writeFile (filepathJoin [filepathJoin [wd, ".vcluster", cn], "kubeconfig.yaml"]) kc =
          none →
        (fetchAndPatchKubeconfigFromSecret L w wd cn hk true).val = none ∧
        Event.writeFile (filepathJoin [filepathJoin [wd, ".vcluster", cn], "kubeconfig.yaml"]) kc ∈
          (fetchAndPatchKubeconfigFromSecret L w wd cn hk true).trace)) ∧
    (∀ kc msg, (secretLoop L w (secretCmd hk cn) cn w.secretTicks 0).val = .ok kc →
      (pollForExternalEndpoint L w hk cn).val = .error msg →
      fetchKubeconfigFromSecretFallback L w wd cn hk true =
        (writeKubeconfig w wd cn kc).after
          ((secretLoop L w (secretCmd hk cn) cn w.secretTicks 0).trace ++
            (pollForExternalEndpoint L w hk cn).trace) ∧
      (w.mkdirAll (filepathJoin [wd, ".vcluster", cn]) = none →
        w.writeFile (filepathJoin [filepathJoin [wd, ".vcluster", cn], "kubeconfig.yaml"]) kc =
          none →
        (fetchKubeconfigFromSecretFallback L w wd cn hk true).val = none ∧
        Event.writeFile (filepathJoin [filepathJoin [wd, ".vcluster", cn], "kubeconfig.yaml"]) kc ∈
          (fetchKubeconfigFromSecretFallback L w wd cn hk true).trace)) ∧
    (∀ msg, (w.exec (connectCmd w hk cn) 0).err = none →
      (checkLoadBalancerEnabled w hk cn).val = true →
      (getExternalEndpoint L w 0 hk cn).val = .error msg →
      (getKubeconfigFromSecret L w cn hk).val =
        .attachment (kubeconfigDisposition cn) (w.exec (connectCmd w hk cn) 0).out) := by
  refine ⟨?_, ?_, ?_⟩
  · intro kc msg hconn hpoll
    have heq : fetchAndPatchKubeconfigFromSecret L w wd cn hk true =
        (writeKubeconfig w wd cn kc).after
          ((connectLoop w (connectCmd w hk cn) w.connectTicks 0).trace ++
            (pollForExternalEndpoint L w hk cn).trace) := by
      unfold fetchAndPatchKubeconfigFromSecret
      simp only [hconn, patchKubeconfig_of_poll_error L w hk cn kc msg true hpoll,
        patchKubeconfig_trace_true]
    refine ⟨heq, ?_⟩
    intro hmk hwr
    rw [heq, writeKubeconfig_ok w wd cn kc hmk hwr]
    simp
  · intro kc msg hsec hpoll
    have heq : fetchKubeconfigFromSecretFallback L w wd cn hk true =
        (writeKubeconfig w wd cn kc).after
          ((secretLoop L w (secretCmd hk cn) cn w.secretTicks 0).trace ++
            (pollForExternalEndpoint L w hk cn).trace) := by
      unfold fetchKubeconfigFromSecretFallback
      simp only [hsec, patchKubeconfig_of_poll_error L w hk cn kc msg true hpoll,
        patchKubeconfig_trace_true]
    refine ⟨heq, ?_⟩
    intro hmk hwr
    rw [heq, writeKubeconfig_ok w wd cn kc hmk hwr]
    simp
  · intro msg hconn hlb hext
    unfold getKubeconfigFromSecret
    simp only [hconn, hlb, hext, if_true]

/-- Instance of C6: with the load balancer still pending, the create path
writes `kc-local` as printed by `vcluster connect`, the fallback writes the
decoded secret `kc`, and the read path returns `kc-local`. -/
theorem resolver_failure_keeps_credentials_witness :
    (fetchAndPatchKubeconfigFromSecret toyLib pendingWorld "requests/42" "demo" "" true).val = none ∧
    Event.writeFile "requests/42/.vcluster/demo/kubeconfig.yaml" "kc-local" ∈
      (fetchAndPatchKubeconfigFromSecret toyLib pendingWorld "requests/42" "demo" "" true).trace ∧
    (fetchKubeconfigFromSecretFallback toyLib secretWorld "requests/42" "demo" "" true).val = none ∧
    Event.writeFile "requests/42/.vcluster/demo/kubeconfig.yaml" "kc" ∈
      (fetchKubeconfigFromSecretFallback toyLib secretWorld "requests/42" "demo" "" true).trace ∧
    (getKubeconfigFromSecret toyLib pendingWorld "demo" "").val =
      .attachment "attachment; filename=kubeconfig-demo.yaml" "kc-local" :=
  have h1 := ((resolver_failure_keeps_credentials toyLib pendingWorld "requests/42" "demo" "").1
    "kc-local" "timed out waiting for external endpoint" rfl rfl).2 rfl rfl
  have h2 := ((resolver_failure_keeps_credentials toyLib secretWorld "requests/42" "demo" "").2.1
    "kc" "timed out waiting for external endpoint" rfl rfl).2 rfl rfl
  have h3 := (resolver_failure_keeps_credentials toyLib pendingWorld "requests/42" "demo" "").2.2
    "no external endpoint available" rfl rfl rfl
  ⟨h1.1, h1.2, h2.1, h2.2, h3⟩

/-- C2: `vclusterHandler` runs its stages in the fixed order config write,
cluster create, credential retrieval, ownership tagging.  A failure of config
write, of cluster create or of credential retrieval ends the request with a
500 response, the actions performed being those of the stages up to the
failing one and none of a later stage; once the three stages succeeded and the
kubeconfig was read back, the response is the success carrying that
kubeconfig whatever the two ownership-tagging runs return. -/
theorem vclusterHandler_stage_order (L : Lib) (w : World) (r : Request) (p : Provision)
    (tr : List Event) (hs : vclusterHandler.setup w r = ⟨.ok p, tr⟩) :
    (∀ e, (createVclusterYAML L w p.workingDir p.clusterName p.ha p.useLoadBalancer).val = some e →
      vclusterHandler L w r =
        ⟨.error ("Error creating YAML: " ++ e) 500,
          tr ++ (createVclusterYAML L w p.workingDir p.clusterName p.ha p.useLoadBalancer).trace⟩) ∧
    ((createVclusterYAML L w p.workingDir p.clusterName p.ha p.useLoadBalancer).val = none →
      ∀ e, (createVirtualCluster w p.workingDir p.clusterName p.hostKubeconfig
          p.useLoadBalancer).val = some e →
      vclusterHandler L w r =
        ⟨.error ("Error creating virtual cluster: " ++ e) 500,
          tr ++ ((createVclusterYAML L w p.workingDir p.clusterName p.ha p.useLoadBalancer).trace ++
            (createVirtualCluster w p.workingDir p.clusterName p.hostKubeconfig
              p.useLoadBalancer).trace)⟩) ∧
    ((createVclusterYAML L w p.workingDir p.clusterName p.ha p.useLoadBalancer).val = none →
      (createVirtualCluster w p.workingDir p.clusterName p.hostKubeconfig
          p.useLoadBalancer).val = none →
      ∀ e, (fetchAndPatchKubeconfigFromSecret L w p.workingDir p.clusterName p.hostKubeconfig
          p.useLoadBalancer).val = some e →
      vclusterHandler L w r =
        ⟨.error ("Error fetching kubeconfig from secret: " ++ e) 500,
          tr ++ ((createVclusterYAML L w p.workingDir p.clusterName p.ha p.useLoadBalancer).trace ++
            (createVirtualCluster w p.workingDir p.clusterName p.hostKubeconfig
              p.useLoadBalancer).trace ++ [.sleep 1] ++
            (fetchAndPatchKubeconfigFromSecret L w p.workingDir p.clusterName p.hostKubeconfig
              p.useLoadBalancer).trace)⟩) ∧
    ((createVclusterYAML L w p.workingDir p.clusterName p.ha p.useLoadBalancer).val = none →
      (createVirtualCluster w p.workingDir p.clusterName p.hostKubeconfig
          p.useLoadBalancer).val = none →
      (fetchAndPatchKubeconfigFromSecret L w p.workingDir p.clusterName p.hostKubeconfig
          p.useLoadBalancer).val = none →
      ∀ d, w.readFile (filepathJoin [p.workingDir, ".vcluster", p.clusterName, "kubeconfig.yaml"]) =
          .ok d →
      vclusterHandler L w r =
        ⟨.created p.reqID ⟨d⟩,
          tr ++ ((createVclusterYAML L w p.workingDir p.clusterName p.ha p.useLoadBalancer).trace ++
            (createVirtualCluster w p.workingDir p.clusterName p.hostKubeconfig
              p.useLoadBalancer).trace ++ [.sleep 1] ++
            (fetchAndPatchKubeconfigFromSecret L w p.workingDir p.clusterName p.hostKubeconfig
              p.useLoadBalancer).trace ++
            [.readFile (filepathJoin [p.workingDir, ".vcluster", p.clusterName, "kubeconfig.yaml"])] ++
            (setClusterOwner w 0 p.hostKubeconfig p.clusterName p.currentUser).trace ++
            (setClusterOwner w 1 p.hostKubeconfig p.clusterName p.currentUser).trace)⟩) := by
  have hh : vclusterHandler L w r = (vclusterHandler.stages L w p).after tr := by
    unfold vclusterHandler
    simp only [hs]
  refine ⟨?_, ?_, ?_, ?_⟩
  · intro e hy
    rw [hh]
    unfold vclusterHandler.stages
    simp only [hy, Run.after]
  · intro hy e hc
    rw [hh]
    unfold vclusterHandler.stages
    simp only [hy, hc, Run.after]
  · intro hy hc e hf
    rw [hh]
    unfold vclusterHandler.stages
    simp only [hy, hc, hf, Run.after]
  · intro hy hc hf d hd
    rw [hh]
    unfold vclusterHandler.stages
    simp only [hy, hc, hf, hd, Run.after]

/-- Instance of C2: with both ownership-tagging runs failing, the request for
`demo` is still answered with the kubeconfig; with every subprocess failing,
it ends in the cluster-create stage with a 500 response after the config write
and the `vcluster create` run alone. -/
theorem vclusterHandler_stage_order_witness :
    (setClusterOwner ownerFailWorld 0 "" "demo" "default").val ≠ none ∧
    (setClusterOwner ownerFailWorld 1 "" "demo" "default").val ≠ none ∧
    (vclusterHandler toyLib ownerFailWorld lbRequest).val = .created "42" ⟨"kc-local"⟩ ∧
    vclusterHandler toyLib failingWorld lbRequest =
      ⟨.error "Error creating virtual cluster: vcluster create failed: exit status 1\nOutput:\n" 500,
        [.mkdirAll "./requests/42",
         .writeFile "./requests/42/vcluster.yaml" "name: demo\nreplicas: 1\n",
         .exec (createCmd failingWorld "./requests/42" "demo" "" true)]⟩ :=
  ⟨by decide, by decide,
   congrArg Run.val ((vclusterHandler_stage_order toyLib ownerFailWorld lbRequest lbProvision
     [.mkdirAll "./requests/42"] rfl).2.2.2 rfl rfl rfl "kc-local" rfl),
   (vclusterHandler_stage_order toyLib failingWorld lbRequest lbProvision
     [.mkdirAll "./requests/42"] rfl).2.1 rfl "vcluster create failed: exit status 1\nOutput:\n" rfl⟩

/-- C7, as stated, fails: for the request `lbRequest` in `pendingWorld` the
load balancer is requested, the service has no ingress entry at any tick of
the polling window and the poll times out, yet creation does not fail: the
handler answers with the success response carrying the kubeconfig. -/
theorem creation_survives_pending_load_balancer :
    lbRequest.formValue "loadbalancer" = "on" ∧
    (∀ i, i < pendingWorld.pollTicks →
      (pendingWorld.exec (pollSvcCmd "" "demo") i).err = none ∧
      toyLib.jsonUnmarshalService (pendingWorld.exec (pollSvcCmd "" "demo") i).out =
        .ok svcPending ∧
      svcPending.ingress = []) ∧
    (pollForExternalEndpoint toyLib pendingWorld "" "demo").val =
      .error "timed out waiting for external endpoint" ∧
    (vclusterHandler toyLib pendingWorld lbRequest).val = .created "42" ⟨"kc-local"⟩ :=
  ⟨rfl, fun _ _ => ⟨rfl, rfl, rfl⟩, rfl, rfl⟩

/-- C7, amended: on the create path with load-balancer exposure requested, if
the service has no ingress entries for the whole polling window, external
endpoint resolution fails with a timeout after one run per tick, no endpoint
rewrite occurs, and creation does not fail on that account: the retrieved
document is what credential retrieval writes, and once the stages before it
succeeded and the file was written and read back the handler answers with the
success response. -/
theorem pending_load_balancer_is_not_fatal (L : Lib) (w : World) (r : Request) (p : Provision)
    (tr : List Event) (hs : vclusterHandler.setup w r = ⟨.ok p, tr⟩)
    (hlb : p.useLoadBalancer = true)
    (hno : ∀ i, i < w.pollTicks → ∃ svc,
      (w.exec (pollSvcCmd p.hostKubeconfig p.clusterName) i).err = none ∧
      L.jsonUnmarshalService (w.exec (pollSvcCmd p.hostKubeconfig p.clusterName) i).out = .ok svc ∧
      svc.ingress = []) :
    pollForExternalEndpoint L w p.hostKubeconfig p.clusterName =
      ⟨.error "timed out waiting for external endpoint",
        List.replicate w.pollTicks (.exec (pollSvcCmd p.hostKubeconfig p.clusterName))⟩ ∧
    (∀ kc, (patchKubeconfig L w p.hostKubeconfig p.clusterName p.useLoadBalancer kc).val = kc) ∧
    (∀ kc d,
      (createVclusterYAML L w p.workingDir p.clusterName p.ha p.useLoadBalancer).val = none →
      (createVirtualCluster w p.workingDir p.clusterName p.hostKubeconfig
        p.useLoadBalancer).val = none →
      (connectLoop w (connectCmd w p.hostKubeconfig p.clusterName) w.connectTicks 0).val = some kc →
      w.mkdirAll (filepathJoin [p.workingDir, ".vcluster", p.clusterName]) = none →
      w.writeFile (filepathJoin [filepathJoin [p.workingDir, ".vcluster", p.clusterName],
        "kubeconfig.yaml"]) kc = none →
      w.readFile (filepathJoin [p.workingDir, ".vcluster", p.clusterName, "kubeconfig.yaml"]) =
        .ok d →
      Event.writeFile (filepathJoin [filepathJoin [p.workingDir, ".vcluster", p.clusterName],
        "kubeconfig.yaml"]) kc ∈ (vclusterHandler L w r).trace ∧
      (vclusterHandler L w r).val = .created p.reqID ⟨d⟩) := by
  have hpoll : pollForExternalEndpoint L w p.hostKubeconfig p.clusterName =
      ⟨.error "timed out waiting for external endpoint",
        List.replicate w.pollTicks (.exec (pollSvcCmd p.hostKubeconfig p.clusterName))⟩ := by
    unfold pollForExternalEndpoint
    apply pollLoop_timeout
    intro j hj
    rw [Nat.zero_add]
    obtain ⟨svc, h1, h2, h3⟩ := hno j hj
    unfold pollTick pollSnapshot
    simp only [h1, h2, h3]
  have hval : (pollForExternalEndpoint L w p.hostKubeconfig p.clusterName).val =
      .error "timed out waiting for external endpoint" := by rw [hpoll]
  refine ⟨hpoll, fun kc => patchKubeconfig_of_poll_error L w _ _ kc _ _ hval, ?_⟩
  intro kc d hy hc hconn hmk hwr hrd
  have hf : fetchAndPatchKubeconfigFromSecret L w p.workingDir p.clusterName p.hostKubeconfig
      p.useLoadBalancer =
      (writeKubeconfig w p.workingDir p.clusterName kc).after
        ((connectLoop w (connectCmd w p.hostKubeconfig p.clusterName) w.connectTicks 0).trace ++
          (pollForExternalEndpoint L w p.hostKubeconfig p.clusterName).trace) := by
    rw [hlb]
    unfold fetchAndPatchKubeconfigFromSecret
    simp only [hconn, patchKubeconfig_of_poll_error L w _ _ kc _ true hval,
      patchKubeconfig_trace_true]
  rw [writeKubeconfig_ok w _ _ kc hmk hwr] at hf
  have hh : vclusterHandler L w r = (vclusterHandler.stages L w p).after tr := by
    unfold vclusterHandler
    simp only [hs]
  rw [hh]
  unfold vclusterHandler.stages
  simp only [hy, hc, hf, hrd, Run.after]
  simp

/-- Instance of amended C7: the request `lbRequest` in `pendingWorld`. -/
theorem pending_load_balancer_is_not_fatal_witness :
    (pollForExternalEndpoint toyLib pendingWorld "" "demo").val =
      .error "timed out waiting for external endpoint" ∧
    Event.writeFile "./requests/42/.vcluster/demo/kubeconfig.yaml" "kc-local" ∈
      (vclusterHandler toyLib pendingWorld lbRequest).trace ∧
    (vclusterHandler toyLib pendingWorld lbRequest).val = .created "42" ⟨"kc-local"⟩ :=
  have h := pending_load_balancer_is_not_fatal toyLib pendingWorld lbRequest lbProvision
    [.mkdirAll "./requests/42"] rfl rfl (fun _ _ => ⟨svcPending, rfl, rfl, rfl⟩)
  have h3 := h.2.2 "kc-local" "kc-local" rfl rfl rfl rfl rfl rfl
  ⟨congrArg Run.val h.1, h3.1, h3.2⟩

/-- C16: `getUserFromRequest` returns the basic-auth user name when basic auth
is present with a non-empty user name; otherwise the `X-Forwarded-User` header
when non-empty; otherwise the `X-Remote-User` header when non-empty; otherwise
the literal `default`.  Its result is never the empty string. -/
theorem getUserFromRequest_order (r : Request) :
    (∀ username password, r.basicAuth = some (username, password) → username ≠ "" →
      getUserFromRequest r = username) ∧
    ((r.basicAuth = none ∨ ∃ password, r.basicAuth = some ("", password)) →
      (r.header "X-Forwarded-User" ≠ "" → getUserFromRequest r = r.header "X-Forwarded-User") ∧
      (r.header "X-Forwarded-User" = "" → r.header "X-Remote-User" ≠ "" →
        getUserFromRequest r = r.header "X-Remote-User") ∧
      (r.header "X-Forwarded-User" = "" → r.header "X-Remote-User" = "" →
        getUserFromRequest r = "default")) ∧
    getUserFromRequest r ≠ "" := by
  have hdef : ("default" : String) ≠ "" := by decide
  have hfall : ∀ s : String,
      s = (if r.header "X-Forwarded-User" ≠ "" then r.header "X-Forwarded-User"
        else if r.header "X-Remote-User" ≠ "" then r.header "X-Remote-User" else "default") →
      (r.header "X-Forwarded-User" ≠ "" → s = r.header "X-Forwarded-User") ∧
      (r.header "X-Forwarded-User" = "" → r.header "X-Remote-User" ≠ "" →
        s = r.header "X-Remote-User") ∧
      (r.header "X-Forwarded-User" = "" → r.header "X-Remote-User" = "" → s = "default") ∧
      s ≠ "" := by
    intro s hs
    by_cases h1 : r.header "X-Forwarded-User" = ""
    · by_cases h2 : r.header "X-Remote-User" = ""
      · simp only [h1, h2, ne_eq, not_true_eq_false, if_false] at hs
        exact ⟨fun h => absurd h1 h, fun _ h => absurd h2 h, fun _ _ => hs, by rw [hs]; exact hdef⟩
      · simp only [h1, h2, ne_eq, not_true_eq_false, not_false_eq_true, if_false, if_true] at hs
        exact ⟨fun h => absurd h1 h, fun _ _ => hs, fun _ h => absurd h h2, by rw [hs]; exact h2⟩
    · simp only [h1, ne_eq, not_false_eq_true, if_true] at hs
      exact ⟨fun _ => hs, fun h => absurd h h1, fun h => absurd h h1, by rw [hs]; exact h1⟩
  refine ⟨?_, ?_, ?_⟩
  · intro username password hb hne
    unfold getUserFromRequest
    simp only [hb, hne, ne_eq, not_false_eq_true, if_true]
  · intro hb
    have hs : getUserFromRequest r =
        (if r.header "X-Forwarded-User" ≠ "" then r.header "X-Forwarded-User"
          else if r.header "X-Remote-User" ≠ "" then r.header "X-Remote-User" else "default") := by
      unfold getUserFromRequest
      rcases hb with hb | ⟨password, hb⟩
      · simp only [hb]
      · simp only [hb, ne_eq, not_true_eq_false, if_false]
    obtain ⟨a, b, c, _⟩ := hfall _ hs
    exact ⟨a, b, c⟩
  · cases hb : r.basicAuth with
    | none =>
      have hs : getUserFromRequest r =
          (if r.header "X-Forwarded-User" ≠ "" then r.header "X-Forwarded-User"
            else if r.header "X-Remote-User" ≠ "" then r.header "X-Remote-User"
            else "default") := by
        unfold getUserFromRequest
        simp only [hb]
      exact (hfall _ hs).2.2.2
    | some up =>
      obtain ⟨username, password⟩ := up
      by_cases hne : username = ""
      · have hs : getUserFromRequest r =
            (if r.header "X-Forwarded-User" ≠ "" then r.header "X-Forwarded-User"
              else if r.header "X-Remote-User" ≠ "" then r.header "X-Remote-User"
              else "default") := by
          unfold getUserFromRequest
          simp only [hb, hne, ne_eq, not_true_eq_false, if_false]
        exact (hfall _ hs).2.2.2
      · have hs : getUserFromRequest r = username := by
          unfold getUserFromRequest
          simp only [hb, hne, ne_eq, not_false_eq_true, if_true]
        rw [hs]
        exact hne

/-- Instance of C16: a request with a blank basic-auth user name and the
forwarded identity `alice` resolves to `alice`; one with nothing resolves to
`default`. -/
theorem getUserFromRequest_order_witness :
    getUserFromRequest aliceRequest = "alice" ∧ getUserFromRequest listRequest = "default" :=
  ⟨((getUserFromRequest_order aliceRequest).2.1 (Or.inr ⟨"", rfl⟩)).1 (by decide),
   ((getUserFromRequest_order listRequest).2.1 (Or.inl rfl)).2.2 rfl rfl⟩

/-- C19: for every parsed service snapshot, the single-attempt lookup
`getExternalEndpoint` and one polling tick of `pollForExternalEndpoint` derive
the same result from it: the lookup returns the endpoint `e` exactly when the
tick returns `e`, and the lookup returns an error exactly when the tick
produces no endpoint and polling continues. -/
theorem lookup_and_tick_agree (svc : ServiceJSON) :
    (∀ e, externalEndpointOf svc = .ok e ↔ pollSnapshot svc = some e) ∧
    ((∃ msg, externalEndpointOf svc = .error msg) ↔ pollSnapshot svc = none) ∧
    (∀ (L : Lib) (w : World) (n i : Nat) (hk cn : String) (e : String),
      (w.exec (getSvcCmd hk cn) n).err = none →
      L.jsonUnmarshalService (w.exec (getSvcCmd hk cn) n).out = .ok svc →
      (w.exec (pollSvcCmd hk cn) i).err = none →
      L.jsonUnmarshalService (w.exec (pollSvcCmd hk cn) i).out = .ok svc →
      (((getExternalEndpoint L w n hk cn).val = .ok e ↔
          pollTick L (w.exec (pollSvcCmd hk cn) i) = some e) ∧
       ((∃ msg, (getExternalEndpoint L w n hk cn).val = .error msg) ↔
          pollTick L (w.exec (pollSvcCmd hk cn) i) = none))) := by
  have h1 : ∀ e, externalEndpointOf svc = .ok e ↔ pollSnapshot svc = some e := by
    intro e
    unfold externalEndpointOf pollSnapshot
    cases svc.ingress with
    | nil => simp
    | cons ing ings =>
      cases svc.ports with
      | nil =>
        by_cases hi : ing.ip = "" <;> by_cases hh : ing.hostname = "" <;> simp [hi, hh]
      | cons p ps =>
        by_cases hi : ing.ip = "" <;> by_cases hh : ing.hostname = "" <;>
          by_cases hp : p.port = 443 <;> simp [hi, hh, hp]
  have h2 : (∃ msg, externalEndpointOf svc = .error msg) ↔ pollSnapshot svc = none := by
    constructor
    · rintro ⟨msg, hmsg⟩
      cases hps : pollSnapshot svc with
      | none => rfl
      | some e =>
        have := (h1 e).2 hps
        rw [this] at hmsg
        cases hmsg
    · intro hnone
      cases hx : externalEndpointOf svc with
      | error msg => exact ⟨msg, rfl⟩
      | ok e =>
        have := (h1 e).1 hx
        rw [hnone] at this
        cases this
  refine ⟨h1, h2, ?_⟩
  intro L w n i hk cn e ha hb hc hd
  have hget : (getExternalEndpoint L w n hk cn).val = externalEndpointOf svc := by
    unfold getExternalEndpoint
    simp only [ha, hb]
  have htick : pollTick L (w.exec (pollSvcCmd hk cn) i) = pollSnapshot svc := by
    unfold pollTick
    simp only [hc, hd]
  rw [hget, htick]
  exact ⟨h1 e, h2⟩

/-- Instance of C19: on the snapshot `svcNamed` both derive
`https://lb.example.com:8443`, on the snapshot `svcGap` the lookup fails and
the tick goes on polling. -/
theorem lookup_and_tick_agree_witness :
    ((getExternalEndpoint toyLib (calmWorld (fun _ _ => "svc-named")) 0 "" "demo").val =
        .ok "https://lb.example.com:8443" ↔
      pollTick toyLib ((calmWorld (fun _ _ => "svc-named")).exec (pollSvcCmd "" "demo") 0) =
        some "https://lb.example.com:8443") ∧
    externalEndpointOf svcNamed = .ok "https://lb.example.com:8443" ∧
    pollSnapshot svcNamed = some "https://lb.example.com:8443" ∧
    externalEndpointOf svcGap = .error "no valid external endpoint" ∧
    pollSnapshot svcGap = none :=
  ⟨((lookup_and_tick_agree svcNamed).2.2 toyLib (calmWorld (fun _ _ => "svc-named")) 0 0 "" "demo"
      "https://lb.example.com:8443" rfl rfl rfl rfl).1,
   rfl, ((lookup_and_tick_agree svcNamed).1 _).1 rfl, rfl,
   (lookup_and_tick_agree svcGap).2.1.1 ⟨_, rfl⟩⟩

/-- C17: `filterEnv env keys` returns exactly the entries of `env`, in their
original order, that do not begin with `k=` for any `k` in `keys`; so with the
keys `KUBERNETES_SERVICE_HOST`, `KUBERNETES_SERVICE_PORT` and `KUBERNETES_PORT`
the result contains no entry defining one of these three variables and
contains every other entry of `env`, and neither does the environment that
`createVirtualCluster` gives to its subprocess define one of them. -/
theorem filterEnv_keeps_exactly (env keys : List String) :
    filterEnv env keys = keptEntries env keys ∧
    (filterEnv env keys).Sublist env ∧
    (∀ e, e ∈ filterEnv env keys ↔ e ∈ env ∧ ∀ k ∈ keys, hasPrefixGo e (k ++ "=") = false) ∧
    (∀ e, e ∈ filterEnv env ["KUBERNETES_SERVICE_HOST", "KUBERNETES_SERVICE_PORT", "KUBERNETES_PORT"] ↔
      e ∈ env ∧ hasPrefixGo e "KUBERNETES_SERVICE_HOST=" = false ∧
        hasPrefixGo e "KUBERNETES_SERVICE_PORT=" = false ∧
        hasPrefixGo e "KUBERNETES_PORT=" = false) ∧
    (∀ (w : World) (wd cn hk : String) (lb : Bool) (e : String), w.environ = env →
      e ∈ ((createCmd w wd cn hk lb).env.getD []) →
      hasPrefixGo e "KUBERNETES_SERVICE_HOST=" = false ∧
        hasPrefixGo e "KUBERNETES_SERVICE_PORT=" = false ∧
        hasPrefixGo e "KUBERNETES_PORT=" = false) := by
  have hthree : ∀ e, e ∈ filterEnv env
      ["KUBERNETES_SERVICE_HOST", "KUBERNETES_SERVICE_PORT", "KUBERNETES_PORT"] ↔
      e ∈ env ∧ hasPrefixGo e "KUBERNETES_SERVICE_HOST=" = false ∧
        hasPrefixGo e "KUBERNETES_SERVICE_PORT=" = false ∧
        hasPrefixGo e "KUBERNETES_PORT=" = false := by
    intro e
    have a1 : ("KUBERNETES_SERVICE_HOST" ++ "=" : String) = "KUBERNETES_SERVICE_HOST=" := by decide
    have a2 : ("KUBERNETES_SERVICE_PORT" ++ "=" : String) = "KUBERNETES_SERVICE_PORT=" := by decide
    have a3 : ("KUBERNETES_PORT" ++ "=" : String) = "KUBERNETES_PORT=" := by decide
    rw [filterEnv_eq_keptEntries, mem_keptEntries]
    constructor
    · rintro ⟨he, hk⟩
      have b1 := hk "KUBERNETES_SERVICE_HOST" (by simp)
      have b2 := hk "KUBERNETES_SERVICE_PORT" (by simp)
      have b3 := hk "KUBERNETES_PORT" (by simp)
      rw [a1] at b1
      rw [a2] at b2
      rw [a3] at b3
      exact ⟨he, b1, b2, b3⟩
    · rintro ⟨he, h1, h2, h3⟩
      refine ⟨he, ?_⟩
      intro k hk
      simp only [List.mem_cons, List.mem_singleton, List.not_mem_nil, or_false] at hk
      rcases hk with rfl | rfl | rfl
      · rw [a1]; exact h1
      · rw [a2]; exact h2
      · rw [a3]; exact h3
  refine ⟨filterEnv_eq_keptEntries env keys, ?_, ?_, hthree, ?_⟩
  · rw [filterEnv_eq_keptEntries]
    exact List.filter_sublist env
  · intro e
    rw [filterEnv_eq_keptEntries]
    exact mem_keptEntries env keys e
  · intro w wd cn hk lb e henv hmem
    simp only [createCmd, vclusterEnv, Option.getD_some, henv] at hmem
    by_cases hne : hk = ""
    · simp only [hne, ne_eq, not_true_eq_false, if_false] at hmem
      exact ((hthree e).1 hmem).2
    · simp only [hne, ne_eq, not_false_eq_true, if_true, List.mem_append,
        List.mem_singleton] at hmem
      rcases hmem with hmem | rfl
      · exact ((hthree e).1 hmem).2
      · exact kubeconfig_entry_defines_none hk

/-- Instance of C17: from an environment with two injected variables and two
others, the two others are kept in their order. -/
theorem filterEnv_keeps_exactly_witness :
    filterEnv ["PATH=/usr/bin", "KUBERNETES_PORT=tcp://10.0.0.1:443", "HOME=/root",
        "KUBERNETES_SERVICE_HOST=10.0.0.1"]
      ["KUBERNETES_SERVICE_HOST", "KUBERNETES_SERVICE_PORT", "KUBERNETES_PORT"] =
      ["PATH=/usr/bin", "HOME=/root"] ∧
    "KUBERNETES_PORT=tcp://10.0.0.1:443" ∉
      ((createCmd (calmWorld internalOut) "requests/42" "demo" "/var/secrets/kubeconfig"
        false).env.getD []) :=
  ⟨(filterEnv_keeps_exactly ["PATH=/usr/bin", "KUBERNETES_PORT=tcp://10.0.0.1:443", "HOME=/root",
        "KUBERNETES_SERVICE_HOST=10.0.0.1"]
      ["KUBERNETES_SERVICE_HOST", "KUBERNETES_SERVICE_PORT", "KUBERNETES_PORT"]).1.trans
      (by decide),
   fun hmem => absurd
     ((filterEnv_keeps_exactly (calmWorld internalOut).environ []).2.2.2.2 (calmWorld internalOut)
       "requests/42" "demo" "/var/secrets/kubeconfig" false _ rfl hmem).2.2 (by decide)⟩

/-- C12: for every workload lookup result that is either not-found (the
lookup command fails) or a status with desired replicas `d` and ready replicas
`r`, `getVclusterInfo` returns a record whose status is `Running` exactly when
`r = d` and `d > 0`, and `Pending` in every other case, the not-found case
included. -/
theorem getVclusterInfo_status (L : Lib) (w : World) (k : Nat) (hk cn : String) (t : Time)
    (u : String) :
    ((w.exec (getStsCmd hk cn) k).err ≠ none →
      ∃ info, (getVclusterInfo L w k hk cn t u).val = .ok info ∧ info.status = "Pending") ∧
    (∀ sts, (w.exec (getStsCmd hk cn) k).err = none →
      L.jsonUnmarshalStatefulSet (w.exec (getStsCmd hk cn) k).out = .ok sts →
      ∃ info, (getVclusterInfo L w k hk cn t u).val = .ok info ∧
        info.status = workloadStatus sts.specReplicas sts.statusReadyReplicas ∧
        (info.status = "Running" ↔
          (sts.statusReadyReplicas = sts.specReplicas ∧ sts.specReplicas > 0)) ∧
        (info.status = "Pending" ↔
          ¬ (sts.statusReadyReplicas = sts.specReplicas ∧ sts.specReplicas > 0))) := by
  refine ⟨?_, ?_⟩
  · intro herr
    cases he : (w.exec (getStsCmd hk cn) k).err with
    | none => exact absurd he herr
    | some err =>
      unfold getVclusterInfo
      simp only [he]
      exact ⟨_, rfl, rfl⟩
  · intro sts he hp
    have hst : ∀ info : VclusterInfo,
        (withWorkloadStatus L (w.exec (getStsCmd hk cn) k).out info).status =
          workloadStatus sts.specReplicas sts.statusReadyReplicas := by
      intro info
      unfold withWorkloadStatus workloadStatus
      simp only [hp]
      by_cases hc : sts.statusReadyReplicas = sts.specReplicas ∧ sts.specReplicas > 0
      · simp only [hc, and_self, if_true]
      · simp only [hc, if_false, ite_self]
    unfold getVclusterInfo
    simp only [he]
    refine ⟨_, rfl, ?_, ?_, ?_⟩
    · rw [(withLoadBalancer_fields L w k hk cn _).2.2.2, hst]
    · rw [(withLoadBalancer_fields L w k hk cn _).2.2.2, hst]
      unfold workloadStatus
      by_cases hc : sts.statusReadyReplicas = sts.specReplicas ∧ sts.specReplicas > 0
      · simp [hc]
      · simp [hc]
    · rw [(withLoadBalancer_fields L w k hk cn _).2.2.2, hst]
      unfold workloadStatus
      by_cases hc : sts.statusReadyReplicas = sts.specReplicas ∧ sts.specReplicas > 0
      · simp [hc]
      · simp [hc]

/-- Instance of C12: a StatefulSet with one of one replica ready gives
`Running`, one with one of three ready gives `Pending`, and a failed lookup
gives `Pending`. -/
theorem getVclusterInfo_status_witness :
    (∃ info, (getVclusterInfo toyLib (calmWorld inventoryOut) 1 "" "demo" 10 "alice").val =
      .ok info ∧ info.status = "Running") ∧
    (∃ info, (getVclusterInfo toyLib (calmWorld inventoryOut) 2 "" "other" 20 "alice").val =
      .ok info ∧ info.status = "Pending") ∧
    (∃ info, (getVclusterInfo toyLib failingWorld 0 "" "demo" 10 "alice").val = .ok info ∧
      info.status = "Pending") :=
  have h1 := (getVclusterInfo_status toyLib (calmWorld inventoryOut) 1 "" "demo" 10 "alice").2
    ⟨1, 1, 1⟩ rfl rfl
  have h2 := (getVclusterInfo_status toyLib (calmWorld inventoryOut) 2 "" "other" 20 "alice").2
    ⟨3, 1, 3⟩ rfl rfl
  ⟨h1.imp (fun _ h => ⟨h.1, h.2.2.1.2 (by decide)⟩),
   h2.imp (fun _ h => ⟨h.1, h.2.2.2.2 (by decide)⟩),
   (getVclusterInfo_status toyLib failingWorld 0 "" "demo" 10 "alice").1
     (Option.some_ne_none _)⟩

/-- C14: `listVclusters` returns an error only when the namespace enumeration
command fails or its output cannot be parsed; otherwise, whatever the
per-cluster lookups return, it succeeds, the records it considers are one per
namespace whose name is prefixed `vcluster-`, in enumeration order, and it
returns exactly those of them that pass the visibility rule. -/
theorem listVclusters_never_aborts (L : Lib) (w : World) (hk u : String) :
    (∀ msg, (listVclusters L w hk u).val = .error msg →
      (w.exec (getNamespacesCmd hk) 0).err ≠ none ∨
      ∃ e, L.jsonUnmarshalNamespaceList (w.exec (getNamespacesCmd hk) 0).out = .error e) ∧
    (∀ items, (w.exec (getNamespacesCmd hk) 0).err = none →
      L.jsonUnmarshalNamespaceList (w.exec (getNamespacesCmd hk) 0).out = .ok items →
      ∃ s, (listVclusters L w hk u).val = .ok s ∧
        goElems s = (consideredRecords L w hk u items 0).filter (visibleTo u) ∧
        (consideredRecords L w hk u items 0).map (fun info => info.name) =
          (items.filter (fun ns => hasPrefixGo ns.name "vcluster-")).map
            (fun ns => trimPrefixGo ns.name "vcluster-")) := by
  refine ⟨?_, ?_⟩
  · intro msg hmsg
    cases he : (w.exec (getNamespacesCmd hk) 0).err with
    | some err => exact Or.inl (Option.some_ne_none _)
    | none =>
      cases hp : L.jsonUnmarshalNamespaceList (w.exec (getNamespacesCmd hk) 0).out with
      | error e => exact Or.inr ⟨e, rfl⟩
      | ok items =>
        rw [listVclusters_ok L w hk u items he hp] at hmsg
        cases hmsg
  · intro items he hp
    refine ⟨_, listVclusters_ok L w hk u items he hp, ?_, consideredRecords_names L w hk u items 0⟩
    rw [goElems_foldl_goAppend]
    simp [goElems]

/-- Instance of C14: with every per-cluster lookup failing, the listing for
`admin` still returns a record for `demo` and one for `other`, in this order. -/
theorem listVclusters_never_aborts_witness :
    (getVclusterInfo toyLib lookupFailWorld 1 "" "demo" 10 "admin").val =
      .ok ⟨"demo", "vcluster-demo", "Pending", false, false, "", 10, ""⟩ ∧
    ∃ s, (listVclusters toyLib lookupFailWorld "" "admin").val = .ok s ∧
      (goElems s).map (fun info => info.name) = ["demo", "other"] :=
  ⟨rfl,
   (((listVclusters_never_aborts toyLib lookupFailWorld "" "admin").2
      [⟨"default", 5⟩, ⟨"vcluster-demo", 10⟩, ⟨"vcluster-other", 20⟩] rfl rfl).imp
      (fun _ h => ⟨h.1, by rw [h.2.1]; decide⟩))⟩

/-- C11: for every record considered by `listVclusters` and every requesting
identity `u`: if `u` is `admin` or `default` the record is included; for any
other `u` the record is included exactly when its owner is unset (empty) or
equal to `u`.  In particular, for the identity `alice` with the namespaces
`vcluster-demo` (owner `alice`) and `vcluster-other` (owner `bob`), the result
contains only `demo`. -/
theorem listing_visibility (L : Lib) (w : World) (hk u : String) (items : List NamespaceJSON)
    (h1 : (w.exec (getNamespacesCmd hk) 0).err = none)
    (h2 : L.jsonUnmarshalNamespaceList (w.exec (getNamespacesCmd hk) 0).out = .ok items) :
    ∃ s, (listVclusters L w hk u).val = .ok s ∧
      ((u = "admin" ∨ u = "default") → goElems s = consideredRecords L w hk u items 0) ∧
      (u ≠ "admin" → u ≠ "default" →
        goElems s = (consideredRecords L w hk u items 0).filter
          (fun info => decide (info.owner = "" ∨ info.owner = u))) ∧
      (∀ info, info ∈ consideredRecords L w hk u items 0 →
        (info ∈ goElems s ↔ (u = "admin" ∨ u = "default" ∨ info.owner = "" ∨ info.owner = u))) ∧
      (∀ t1 t2, u = "alice" → items = [⟨"vcluster-demo", t1⟩, ⟨"vcluster-other", t2⟩] →
        (getClusterOwner w 0 hk "demo").val = "alice" →
        (getClusterOwner w 2 hk "other").val = "bob" →
        (goElems s).map (fun info => info.name) = ["demo"]) := by
  have hel : goElems (((consideredRecords L w hk u items 0).filter (visibleTo u)).foldl
      goAppend none) = (consideredRecords L w hk u items 0).filter (visibleTo u) := by
    rw [goElems_foldl_goAppend]
    simp [goElems]
  refine ⟨_, listVclusters_ok L w hk u items h1 h2, ?_, ?_, ?_, ?_⟩
  · intro hu
    rw [hel]
    apply List.filter_eq_self.2
    intro info _
    unfold visibleTo
    rw [if_pos hu]
  · intro ha hd
    rw [hel]
    apply List.filter_congr
    intro info _
    unfold visibleTo
    rw [if_neg (by simp [ha, hd])]
  · intro info hmem
    rw [hel, List.mem_filter, visibleTo_iff]
    constructor
    · rintro ⟨_, hv⟩
      rcases hv with hv | hv | hv | hv
      · exact Or.inr (Or.inl hv)
      · exact Or.inl hv
      · exact Or.inr (Or.inr (Or.inl hv))
      · exact Or.inr (Or.inr (Or.inr hv))
    · intro hv
      refine ⟨hmem, ?_⟩
      rcases hv with hv | hv | hv | hv
      · exact Or.inr (Or.inl hv)
      · exact Or.inl hv
      · exact Or.inr (Or.inr (Or.inl hv))
      · exact Or.inr (Or.inr (Or.inr hv))
  · intro t1 t2 hu hitems ho1 ho2
    subst hu
    subst hitems
    have hp1 : hasPrefixGo "vcluster-demo" "vcluster-" = true := by decide
    have hp2 : hasPrefixGo "vcluster-other" "vcluster-" = true := by decide
    have hn1 : trimPrefixGo "vcluster-demo" "vcluster-" = "demo" := by decide
    have hn2 : trimPrefixGo "vcluster-other" "vcluster-" = "other" := by decide
    have f1 := record_fields L w hk "alice" 0 ⟨"vcluster-demo", t1⟩
    have f2 := record_fields L w hk "alice" 1 ⟨"vcluster-other", t2⟩
    simp only [hn1, hn2, Nat.mul_zero, Nat.mul_one] at f1 f2
    rw [ho1] at f1
    rw [ho2] at f2
    have hv1 : visibleTo "alice"
        (listVclusters.record L w hk "alice" 0 ⟨"vcluster-demo", t1⟩).val = true := by
      rw [visibleTo_iff, f1.2.2]
      exact Or.inr (Or.inr (Or.inr rfl))
    have hv2 : visibleTo "alice"
        (listVclusters.record L w hk "alice" 1 ⟨"vcluster-other", t2⟩).val = false := by
      unfold visibleTo
      rw [f2.2.2]
      decide
    rw [hel, consideredRecords_cons, consideredRecords_cons]
    simp only [hp1, hp2, if_true]
    have hnil : consideredRecords L w hk "alice" [] (0 + 1 + 1) = [] := rfl
    rw [hnil]
    simp [List.filter_cons, hv1, hv2, f1.1]

/-- Instance of C11: on a host with `vcluster-demo` owned by `alice` and
`vcluster-other` owned by `bob`, `alice` is shown `demo` only. -/
theorem listing_visibility_witness :
    (∃ s, (listVclusters toyLib (calmWorld inventoryOut) "" "alice").val = .ok s ∧
      goElems s = [demoRecord] ∧ (goElems s).map (fun info => info.name) = ["demo"]) ∧
    (∃ s, (listVclusters toyLib (calmWorld pairOut) "" "alice").val = .ok s ∧
      (goElems s).map (fun info => info.name) = ["demo"]) :=
  ⟨(listing_visibility toyLib (calmWorld inventoryOut) "" "alice"
    [⟨"default", 5⟩, ⟨"vcluster-demo", 10⟩, ⟨"vcluster-other", 20⟩] rfl rfl).imp
    (fun _ h => ⟨h.1, by rw [h.2.2.1 (by decide) (by decide)]; decide,
      by rw [h.2.2.1 (by decide) (by decide)]; decide⟩),
   (listing_visibility toyLib (calmWorld pairOut) "" "alice"
    [⟨"vcluster-demo", 10⟩, ⟨"vcluster-other", 20⟩] rfl rfl).imp
    (fun _ h => ⟨h.1, h.2.2.2.2 10 20 rfl rfl rfl rfl⟩)⟩

/-- C13: every `VclusterInfo` record produced by `listVclusters`, whether
built by `getVclusterInfo` or substituted as a degraded record, has its
namespace exactly equal to `vcluster-` followed by its name. -/
theorem listing_namespace_invariant (L : Lib) (w : World) (hk u : String) :
    (∀ s info, (listVclusters L w hk u).val = .ok s → info ∈ goElems s →
      info.namespaceName = "vcluster-" ++ info.name) ∧
    (∀ (k : Nat) (cn : String) (t : Time) (info : VclusterInfo),
      (getVclusterInfo L w k hk cn t u).val = .ok info →
      info.name = cn ∧ info.namespaceName = "vcluster-" ++ info.name) ∧
    (∀ (n : Nat) (ns : NamespaceJSON), hasPrefixGo ns.name "vcluster-" = true →
      (degradedInfo w n hk (trimPrefixGo ns.name "vcluster-") ns).val.namespaceName =
        "vcluster-" ++ (degradedInfo w n hk (trimPrefixGo ns.name "vcluster-") ns).val.name) := by
  refine ⟨?_, ?_, ?_⟩
  · intro s info hs hmem
    cases he : (w.exec (getNamespacesCmd hk) 0).err with
    | some err =>
      unfold listVclusters at hs
      simp [he] at hs
    | none =>
      cases hp : L.jsonUnmarshalNamespaceList (w.exec (getNamespacesCmd hk) 0).out with
      | error e =>
        unfold listVclusters at hs
        simp [he, hp] at hs
      | ok items =>
        rw [listVclusters_ok L w hk u items he hp] at hs
        simp only [Except.ok.injEq] at hs
        rw [← hs, goElems_foldl_goAppend] at hmem
        simp only [goElems, List.nil_append, List.mem_filter] at hmem
        exact consideredRecords_namespace L w hk u items 0 info hmem.1
  · intro k cn t info hinfo
    obtain ⟨info2, hv, hn, hs, _⟩ := getVclusterInfo_ok L w k hk cn t u
    rw [hv] at hinfo
    simp only [Except.ok.injEq] at hinfo
    subst hinfo
    exact ⟨hn, by rw [hs, hn]⟩
  · intro n ns hp
    show ns.name = "vcluster-" ++ trimPrefixGo ns.name "vcluster-"
    exact (trimPrefixGo_append ns.name "vcluster-" hp).symm

/-- Instance of C13: the records listed for `admin` on the host of
`inventoryOut`, and the degraded record of `vcluster-demo`. -/
theorem listing_namespace_invariant_witness :
    (listVclusters toyLib (calmWorld inventoryOut) "" "admin").val =
      .ok (some [demoRecord, otherRecord]) ∧
    demoRecord.namespaceName = "vcluster-" ++ demoRecord.name ∧
    otherRecord.namespaceName = "vcluster-" ++ otherRecord.name ∧
    (degradedInfo (calmWorld inventoryOut) 3 "" "demo" ⟨"vcluster-demo", 10⟩).val.namespaceName =
      "vcluster-" ++ (degradedInfo (calmWorld inventoryOut) 3 "" "demo" ⟨"vcluster-demo", 10⟩).val.name :=
  have h := listing_namespace_invariant toyLib (calmWorld inventoryOut) "" "admin"
  ⟨rfl, h.1 (some [demoRecord, otherRecord]) demoRecord rfl (by decide),
   h.1 (some [demoRecord, otherRecord]) otherRecord rfl (by decide),
   h.2.2 3 ⟨"vcluster-demo", 10⟩ (by decide)⟩

/-- C15 fails on the code: for the unauthenticated `GET /api/vclusters` on a
host with credentials and no `vcluster-` namespace, `listVclusters` succeeds
with the `nil` slice and the handler's body is the JSON value `null`, not an
array; the early exit taken without credentials does send the empty array. -/
theorem list_handler_sends_null :
    listRequest.method = "GET" ∧
    getDefaultKubeconfig emptyHostWorld = "/var/secrets/kubeconfig" ∧
    toyLib.jsonUnmarshalNamespaceList
      (emptyHostWorld.exec (getNamespacesCmd "/var/secrets/kubeconfig") 0).out =
      .ok [⟨"default", 5⟩, ⟨"kube-system", 6⟩] ∧
    (listVclusters toyLib emptyHostWorld "/var/secrets/kubeconfig" "default").val = .ok none ∧
    (vclustersListHandler toyLib emptyHostWorld listRequest).val = .listing .null ∧
    getDefaultKubeconfig (calmWorld inventoryOut) = "" ∧
    (vclustersListHandler toyLib (calmWorld inventoryOut) listRequest).val = .listing (.array []) :=
  ⟨rfl, rfl, rfl, rfl, rfl, rfl, rfl⟩

/-- C18 fails on the code: with the external endpoint resolved to
`https://1.2.3.4` and `updateKubeconfigEndpoint` failing on the retrieved
document `not-a-kubeconfig`, the create path writes an empty file and the read
path returns an empty body, not the retrieved document. -/
theorem rewrite_failure_discards_credentials :
    brokenWorld.exec (connectCmd brokenWorld "" "demo") 0 = ⟨"not-a-kubeconfig", none⟩ ∧
    (pollForExternalEndpoint toyLib brokenWorld "" "demo").val = .ok "https://1.2.3.4" ∧
    (getExternalEndpoint toyLib brokenWorld 0 "" "demo").val = .ok "https://1.2.3.4" ∧
    updateKubeconfigEndpoint toyLib "not-a-kubeconfig" "https://1.2.3.4" =
      .error "failed to unmarshal kubeconfig: cannot unmarshal" ∧
    fetchAndPatchKubeconfigFromSecret toyLib brokenWorld "requests/42" "demo" "" true =
      ⟨none, [.exec (connectCmd brokenWorld "" "demo"), .exec (pollSvcCmd "" "demo"),
        .mkdirAll "requests/42/.vcluster/demo",
        .writeFile "requests/42/.vcluster/demo/kubeconfig.yaml" ""]⟩ ∧
    (getKubeconfigFromSecret toyLib brokenWorld "demo" "").val =
      .attachment "attachment; filename=kubeconfig-demo.yaml" "" :=
  ⟨rfl, rfl, rfl, rfl, rfl, rfl⟩

end KubeHatch
